import Mathlib

/-!
Verification of the device-state synchronization engine of the iaqualink-py
repository (pool-automation controllers behind a vendor cloud service).

The development shallowly embeds the Python sources:
  * `shadow.py`   — the recursive shadow-document merge (`Shadow.update`,
    `LockedData`);
  * `system.py`   — the controller families (`AqualinkPoolSystem`,
    `eXOChlorinator`, `zs500Heater`), their `update` refresh cycles,
    response parsers and device registry upserts;
  * `client.py`   — the MQTT offline callback that flags systems offline.

Python dictionaries are embedded as association lists preserving insertion
order (`alGet` / `alSet` mirror `d[k]` reads and `d[k] = v` writes), JSON
payloads as the inductive `JVal`, and raised exceptions as `Except` results.
-/

/-- A JSON-like payload value: numbers, strings, booleans, null, objects
(insertion-ordered key/value lists, as Python dicts) and arrays. -/
inductive JVal where
  | jnum (n : Int)
  | jstr (s : String)
  | jbool (b : Bool)
  | jnull
  | jobj (entries : List (String × JVal))
  | jarr (elems : List JVal)

/-- Python `d.get(k)` / `d[k]` lookup on an insertion-ordered dict:
returns the value of the first (unique, for real dicts) matching key. -/
def alGet {α : Type} : List (String × α) → String → Option α
  | [], _ => none
  | (k1, v) :: rest, k => if k1 = k then some v else alGet rest k

/-- Python `d[k] = v` on an insertion-ordered dict: replaces the value in
place if the key exists, otherwise appends the pair at the end. -/
def alSet {α : Type} : List (String × α) → String → α → List (String × α)
  | [], k, v => [(k, v)]
  | (k1, v1) :: rest, k, v =>
      if k1 = k then (k, v) :: rest else (k1, v1) :: alSet rest k v

/-- Python `k in d`. -/
def alHasKey {α : Type} (l : List (String × α)) (k : String) : Bool :=
  (alGet l k).isSome

/-- Python `d.pop(k, None)`: removes the first occurrence of the key. -/
def alRemove {α : Type} : List (String × α) → String → List (String × α)
  | [], _ => []
  | (k1, v1) :: rest, k =>
      if k1 = k then rest else (k1, v1) :: alRemove rest k

/-- The leaf holder of `shadow.py`: `LockedData` stores a value plus
optional version and metadata (all `None` until `set_value` is called;
the `threading.Lock` has no observable effect on the merge result). -/
structure LockedData where
  value : Option JVal
  version : Option JVal
  metadata : Option JVal

/-- A node of the local shadow mirror: either a `LockedData` leaf or a
nested dictionary, as built by `Shadow.update` in `shadow.py`. -/
inductive DNode where
  | leaf (ld : LockedData)
  | node (entries : List (String × DNode))

/-- Python exceptions that the embedded merge can raise: `AttributeError`
(calling `.get`/`.set_value` on an object lacking it), `TypeError`
(`k in d` on a non-container). -/
inductive PyErr where
  | attributeError
  | typeError

/-- Evaluates the Python expression
`metadata.get(k, {}) if metadata is not None else None` from
`Shadow.update`: `none` models Python `None`; a non-dict metadata value
raises `AttributeError` on `.get`. -/
def mdGetK (md : Option JVal) (k : String) : Except PyErr (Option JVal) :=
  match md with
  | none => .ok none
  | some (.jobj es) => .ok (some ((alGet es k).getD (.jobj [])))
  | some _ => .error .attributeError

/-- The recursive merge `Shadow.update(d, u, version, metadata)` from
`shadow.py`, as a function from the old tree to the new tree. `d` is the
local tree (a dict node, or — through the duck-typed recursive call
`Shadow.update(d.get(k, {}), v, ...)` — possibly a `LockedData` leaf);
`u` is the entry list of the incoming update dict. For each incoming key:
a mapping value recurses into (creating if absent) the sub-tree, any
other value is stored via `LockedData.set_value`. A nonempty mapping
merged onto a `LockedData` leaf raises (`LockedData` has no `.get` and
does not support `in`); a non-mapping merged onto a sub-dict raises
(`dict` has no `.set_value`); an empty incoming mapping returns `d`
unchanged before any dict operation is attempted. -/
def Shadow.update : DNode → List (String × JVal) → Option JVal → Option JVal →
    Except PyErr DNode
  | d, [], _, _ => .ok d
  | .leaf _, (_, v) :: _, _, _ =>
      match v with
      | .jobj _ => .error .attributeError
      | _ => .error .typeError
  | .node es, (k, v) :: rest, ver, md =>
      match v with
      | .jobj ventries =>
          match mdGetK md k with
          | .error e => .error e
          | .ok mdk =>
            match Shadow.update ((alGet es k).getD (.node [])) ventries ver mdk with
            | .error e => .error e
            | .ok sub =>
              Shadow.update (.node (alSet es k sub)) rest ver md
      | _ =>
          match alGet es k with
          | some (.node _) => .error .attributeError
          | _ =>
            match mdGetK md k with
            | .error e => .error e
            | .ok mdk =>
              Shadow.update (.node (alSet es k (.leaf ⟨some v, ver, mdk⟩))) rest ver md

/-- Whether a JSON value is a mapping (Python `isinstance(v, Mapping)`). -/
def JVal.isObj : JVal → Bool
  | .jobj _ => true
  | _ => false

/-- Looks a key path up in a shadow tree: `dGetPath d [k1, k2]` is the
sub-tree or leaf reached by `d[k1][k2]`, or `none` when the path leaves
the tree (including descending through a leaf). -/
def dGetPath : DNode → List String → Option DNode
  | d, [] => some d
  | .node es, k :: ks =>
      match alGet es k with
      | some d2 => dGetPath d2 ks
      | none => none
  | .leaf _, _ :: _ => none

/-- Whether a key path is present in (touched by) an incoming update
dict: the root path always is; a path through a mapping entry recurses;
a path reaching a non-mapping entry is considered touched (that leaf is
set/replaced there); a path through an absent key is not present. -/
def uHasPath : List (String × JVal) → List String → Bool
  | _, [] => true
  | us, k :: ks =>
      match alGet us k with
      | some (.jobj vs) => uHasPath vs ks
      | some _ => true
      | none => false

/-- Well-formedness of an incoming update as a Python dict tree: keys are
unique at every nesting level (Python dictionaries cannot repeat keys;
the association-list embedding must state it). -/
def keysOkL : List (String × JVal) → Bool
  | [] => true
  | (k, v) :: rest =>
      !alHasKey rest k &&
      (match v with
       | .jobj es => keysOkL es
       | _ => true) &&
      keysOkL rest

/-- Shape compatibility between an existing shadow tree and an incoming
update, written from the specification wording: every shared key path
agrees on mapping-versus-leaf shape. An empty incoming mapping is
compatible with anything (the merge returns before any dict operation);
an absent key is compatible with any incoming value. -/
def shapeAgreeD : DNode → List (String × JVal) → Bool
  | _, [] => true
  | .leaf _, _ :: _ => false
  | .node es, (k, v) :: rest =>
      (match v with
       | .jobj vs =>
           (match alGet es k with
            | some (.leaf _) => vs.isEmpty
            | some (.node sub) => shapeAgreeD (.node sub) vs
            | none => shapeAgreeD (.node []) vs)
       | _ =>
           (match alGet es k with
            | some (.node _) => false
            | _ => true)) &&
      shapeAgreeD (.node es) rest

/-- Transport-level exceptions raised by `client.py` requests: status 401
raises `AqualinkServiceUnauthorizedException`, any other non-200 status
raises `AqualinkServiceException`. Modelled from the spec: `exception.py`
is not under `src/`; the taxonomy (spec section 7) and the catch structure
of `system.py` (an `except AqualinkServiceException` clause that also
covers the unauthorized case, consulted after a dedicated
`except AqualinkServiceUnauthorizedException` clause) identify the
unauthorized exception as a sub-class of the generic service exception. -/
inductive TransportErr where
  | unauthorized
  | service

/-- Exceptions raised while parsing a response payload in `system.py`: the
device-offline marker raises `AqualinkSystemOfflineException`; malformed
payloads raise ordinary Python errors (`KeyError`, `IndexError`,
`TypeError`, `AttributeError`). -/
inductive ParseErr where
  | systemOffline
  | keyError
  | indexError
  | typeError
  | attributeError

/-- The exception escaping an `update()` cycle: either a transport-level
error from the fetch/login phase or a parse-phase error. -/
inductive UpdateErr where
  | transport (e : TransportErr)
  | parse (e : ParseErr)

/-- A device held in the registry. Modelled from the spec: `device.py` is
not under `src/`; `AqualinkDevice.from_data(system, data)` builds a fresh
classified device object holding the attribute bag, and the registry logic
in `system.py` only needs that it is a new object carrying `data`.
`devId` models Python object identity (an allocation counter), so that
in-place mutation versus replacement is observable. -/
structure AqualinkDevice where
  devId : Nat
  data : List (String × JVal)

/-- The mutable state of an `AqualinkSystem` (from `__init__` in
`system.py`): the device registry, the spa flag, the temperature unit, the
refresh stamp and the tri-state online flag (`none` means unknown).
`nextId` is the allocation counter backing device identity. -/
structure SysState where
  devices : List (String × AqualinkDevice)
  nextId : Nat
  has_spa : Option Bool
  temp_unit : Option JVal
  online : Option Bool
  last_refresh : Int

/-- The state set up by `AqualinkSystem.__init__`. -/
def initialSysState : SysState :=
  { devices := [], nextId := 0, has_spa := none, temp_unit := none,
    online := none, last_refresh := 0 }

/-- Constant `MIN_SECS_TO_REFRESH` from `system.py`. -/
def MIN_SECS_TO_REFRESH : Int := 15

/-- Python `data[k]` on a JSON value (KeyError when the key is missing,
TypeError-style failure when the value is not a mapping). -/
def jget (j : JVal) (k : String) : Except ParseErr JVal :=
  match j with
  | .jobj es =>
      match alGet es k with
      | some v => .ok v
      | none => .error .keyError
  | _ => .error .typeError

/-- Python `data[i]` on a JSON array. -/
def jidx (j : JVal) (i : Nat) : Except ParseErr JVal :=
  match j with
  | .jarr xs =>
      match xs.get? i with
      | some v => .ok v
      | none => .error .indexError
  | _ => .error .typeError

/-- Python `v == s` comparing a JSON value against a string literal. -/
def isStr (v : JVal) (s : String) : Bool :=
  match v with
  | .jstr t => t = s
  | _ => false

/-- Python `attrs.update(other)` over insertion-ordered dicts: each pair
of `other` overwrites in place or appends, in order. -/
def mergeAttrs (attrs other : List (String × JVal)) : List (String × JVal) :=
  other.foldl (fun acc p => alSet acc p.1 p.2) attrs

/-- The registry upsert loop shared by every parser in `system.py`:
`if k in self.devices:` merge the new attribute values into the existing
device's `data` dict (in place, preserving object identity) `else:`
install `AqualinkDevice.from_data(self, v)` as a fresh object. -/
def upsertDevices (st : SysState) (flat : List (String × List (String × JVal))) :
    SysState :=
  flat.foldl
    (fun s p =>
      match alGet s.devices p.1 with
      | some dev =>
          { s with devices := alSet s.devices p.1 ⟨dev.devId, mergeAttrs dev.data p.2⟩ }
      | none =>
          { s with devices := alSet s.devices p.1 ⟨s.nextId, p.2⟩,
                   nextId := s.nextId + 1 })
    st

/-- The flattening loop of `_parse_home_response`: each element of
`home_screen[4:]` is a single-key object whose first key/value pair
becomes the attribute bag with keys "name" and "state"; an empty object
makes `list(x.keys())[0]` raise IndexError, a non-object has no `.keys`. -/
def flattenHome : List JVal → List (String × List (String × JVal)) →
    Except ParseErr (List (String × List (String × JVal)))
  | [], acc => .ok acc
  | x :: rest, acc =>
      match x with
      | .jobj [] => .error .indexError
      | .jobj ((n, s) :: _) =>
          flattenHome rest (alSet acc n [("name", .jstr n), ("state", s)])
      | _ => .error .attributeError

/-- Parser `AqualinkPoolSystem._parse_home_response`: checks the offline marker
at `home_screen[0]["status"]` before any mutation, then records
`temp_unit` from `home_screen[3]["temp_scale"]`, flattens
`home_screen[4:]`, upserts the registry on the system, and derives
`has_spa` from the presence of the `spa_set_point` key. Mutations made
before a later failure persist (Python mutates `self` in place). -/
def parse_home_response (st : SysState) (data : JVal) :
    SysState × Except ParseErr Unit :=
  match jget data "home_screen" with
  | .error e => (st, .error e)
  | .ok hs =>
    match hs with
    | .jarr xs =>
      match jidx hs 0 with
      | .error e => (st, .error e)
      | .ok x0 =>
        match jget x0 "status" with
        | .error e => (st, .error e)
        | .ok status =>
          if isStr status "Offline" then (st, .error .systemOffline)
          else
            match jidx hs 3 with
            | .error e => (st, .error e)
            | .ok x3 =>
              match jget x3 "temp_scale" with
              | .error e => (st, .error e)
              | .ok tu =>
                let st1 := { st with temp_unit := some tu }
                match flattenHome (xs.drop 4) [] with
                | .error e => (st1, .error e)
                | .ok flat =>
                  let st2 := upsertDevices st1 flat
                  ({ st2 with has_spa := some (alHasKey flat "spa_set_point") }, .ok ())
    | _ => (st, .error .typeError)

/-- The inner loop of `_parse_devices_response` flattening: starts from
the bag with keys "aux" (`aux.replace("aux_", "")`) and "name", then runs
`attrs.update(y)` for each element of the value list. -/
def foldUpdate : List (String × JVal) → List JVal →
    Except ParseErr (List (String × JVal))
  | attrs, [] => .ok attrs
  | attrs, y :: ys =>
      match y with
      | .jobj es => foldUpdate (mergeAttrs attrs es) ys
      | _ => .error .typeError

/-- The flattening loop of `_parse_devices_response` over
`devices_screen[3:]`. -/
def flattenDevices : List JVal → List (String × List (String × JVal)) →
    Except ParseErr (List (String × List (String × JVal)))
  | [], acc => .ok acc
  | x :: rest, acc =>
      match x with
      | .jobj [] => .error .indexError
      | .jobj ((aux, val) :: _) =>
          match val with
          | .jarr ys =>
              match foldUpdate
                  [("aux", .jstr (aux.replace "aux_" "")), ("name", .jstr aux)] ys with
              | .error e => .error e
              | .ok attrs => flattenDevices rest (alSet acc aux attrs)
          | _ => .error .typeError
      | _ => .error .attributeError

/-- Parser `AqualinkPoolSystem._parse_devices_response`: checks the offline
marker at `devices_screen[0]["status"]` before any mutation, flattens
`devices_screen[3:]` into a local dict, and only then upserts the
registry: a failure anywhere leaves the system state exactly unchanged. -/
def parse_devices_response (st : SysState) (data : JVal) :
    SysState × Except ParseErr Unit :=
  match jget data "devices_screen" with
  | .error e => (st, .error e)
  | .ok ds =>
    match ds with
    | .jarr xs =>
      match jidx ds 0 with
      | .error e => (st, .error e)
      | .ok x0 =>
        match jget x0 "status" with
        | .error e => (st, .error e)
        | .ok status =>
          if isStr status "Offline" then (st, .error .systemOffline)
          else
            match flattenDevices (xs.drop 3) [] with
            | .error e => (st, .error e)
            | .ok flat => (upsertDevices st flat, .ok ())
    | _ => (st, .error .typeError)

/-- The shadow parsers' `attrs.update(state)` wrapped in `try/except:
pass`: a mapping state merges its entries into the attribute bag, any
other value leaves the bag unchanged (payloads holding lists of pairs do
not occur in the modelled JSON responses). -/
def mergeIfObj (attrs : List (String × JVal)) (v : JVal) : List (String × JVal) :=
  match v with
  | .jobj es => mergeAttrs attrs es
  | _ => attrs

/-- The equipment-flattening loop shared by the shadow parsers: each
`(name, state)` item becomes a bag with keys "name" and "state", with the
state's own entries merged in when it is itself a mapping. -/
def flattenEquipment (items : List (String × JVal)) :
    List (String × List (String × JVal)) :=
  items.foldl
    (fun acc p => alSet acc p.1 (mergeIfObj [("name", .jstr p.1), ("state", p.2)] p.2))
    []

/-- Parser `eXOChlorinator._parse_shadow_response`: flattens
`state.reported.equipment.swc_0`, drops `vsp_speed`, adds the
`state.reported.heating` block as the "heating" bag, then upserts. -/
def parse_shadow_response_exo (st : SysState) (data : JVal) :
    SysState × Except ParseErr Unit :=
  match jget data "state" with
  | .error e => (st, .error e)
  | .ok s1 =>
  match jget s1 "reported" with
  | .error e => (st, .error e)
  | .ok rep =>
  match jget rep "equipment" with
  | .error e => (st, .error e)
  | .ok eqp =>
  match jget eqp "swc_0" with
  | .error e => (st, .error e)
  | .ok swc =>
  match swc with
  | .jobj items =>
      let flat1 := alRemove (flattenEquipment items) "vsp_speed"
      match jget rep "heating" with
      | .error e => (st, .error e)
      | .ok hv =>
        match hv with
        | .jobj hes =>
            let flat2 := alSet flat1 "heating" (mergeAttrs [("name", .jstr "heating")] hes)
            (upsertDevices st flat2, .ok ())
        | _ => (st, .error .typeError)
  | _ => (st, .error .attributeError)

/-- Parser `zs500Heater._parse_shadow_response`: flattens
`state.reported.equipment.hp_0`, drops `debug`, then upserts. -/
def parse_shadow_response_zs500 (st : SysState) (data : JVal) :
    SysState × Except ParseErr Unit :=
  match jget data "state" with
  | .error e => (st, .error e)
  | .ok s1 =>
  match jget s1 "reported" with
  | .error e => (st, .error e)
  | .ok rep =>
  match jget rep "equipment" with
  | .error e => (st, .error e)
  | .ok eqp =>
  match jget eqp "hp_0" with
  | .error e => (st, .error e)
  | .ok hp =>
  match hp with
  | .jobj items =>
      (upsertDevices st (alRemove (flattenEquipment items) "debug"), .ok ())
  | _ => (st, .error .attributeError)

/-- The outcome of one HTTP request issued during a refresh cycle: a JSON
payload, or a transport-level exception. -/
inductive FetchOutcome where
  | ok (payload : JVal)
  | err (e : TransportErr)

/-- The environment of one `AqualinkPoolSystem.update()` call: the
`int(time.time())` reading at entry, the outcomes of the home-screen and
devices-screen requests, and the clock reading taken when `last_refresh`
is re-stamped at the end of a successful cycle. -/
structure PoolEnv where
  now : Int
  homeResp : FetchOutcome
  devResp : FetchOutcome
  nowEnd : Int

/-- The environment of one shadow-family `update()` call: the clock at
entry, the first `send_shadow_request` outcome, the outcome of `login()`
(`none` means it succeeded) and of the retried `send_shadow_request`
(both consulted only when the first fetch is unauthorized), and the
closing clock reading. -/
structure ShadowEnv where
  now : Int
  fetch1 : FetchOutcome
  loginResult : Option TransportErr
  fetch2 : FetchOutcome
  nowEnd : Int

/-- The observable outcome of one `update()` call: resulting system
state, the exception raised (if any), whether the throttle admitted a
fetch cycle (0 or 1), the number of `send_shadow_request` calls, and the
number of `login()` calls. -/
structure UpdateResult where
  state : SysState
  result : Except UpdateErr Unit
  fetchCycles : Nat
  shadowFetches : Nat
  logins : Nat

/-- Refresh cycle `AqualinkPoolSystem.update`: returns untouched within
`MIN_SECS_TO_REFRESH` of `last_refresh`; a failing fetch sets `online`
to unknown and re-raises; an offline marker during parse sets `online`
to `False` and re-raises; any other parse error propagates without
touching `online`; success sets `online` to `True` and re-stamps
`last_refresh`. -/
def AqualinkPoolSystem.update (st : SysState) (env : PoolEnv) : UpdateResult :=
  if env.now - st.last_refresh < MIN_SECS_TO_REFRESH then
    ⟨st, .ok (), 0, 0, 0⟩
  else
    match env.homeResp with
    | .err e => ⟨{ st with online := none }, .error (.transport e), 1, 0, 0⟩
    | .ok r1 =>
      match env.devResp with
      | .err e => ⟨{ st with online := none }, .error (.transport e), 1, 0, 0⟩
      | .ok r2 =>
        match parse_home_response st r1 with
        | (st1, .error .systemOffline) =>
            ⟨{ st1 with online := some false }, .error (.parse .systemOffline), 1, 0, 0⟩
        | (st1, .error e) => ⟨st1, .error (.parse e), 1, 0, 0⟩
        | (st1, .ok _) =>
          match parse_devices_response st1 r2 with
          | (st2, .error .systemOffline) =>
              ⟨{ st2 with online := some false }, .error (.parse .systemOffline), 1, 0, 0⟩
          | (st2, .error e) => ⟨st2, .error (.parse e), 1, 0, 0⟩
          | (st2, .ok _) =>
              ⟨{ st2 with online := some true, last_refresh := env.nowEnd }, .ok (), 1, 0, 0⟩

/-- The parse phase shared by the shadow families' `update`: offline
marker sets `online := False` and re-raises, other parse errors
propagate, success stamps `online := True` and `last_refresh`. -/
def shadowParsePhase (parse : SysState → JVal → SysState × Except ParseErr Unit)
    (st : SysState) (env : ShadowEnv) (r1 : JVal) (fetches logins : Nat) :
    UpdateResult :=
  match parse st r1 with
  | (st1, .error .systemOffline) =>
      ⟨{ st1 with online := some false }, .error (.parse .systemOffline), 1, fetches, logins⟩
  | (st1, .error e) => ⟨st1, .error (.parse e), 1, fetches, logins⟩
  | (st1, .ok _) =>
      ⟨{ st1 with online := some true, last_refresh := env.nowEnd }, .ok (), 1, fetches, logins⟩

/-- The `update()` of the shadow families (`eXOChlorinator` and
`zs500Heater` share this code verbatim, differing only in the parser):
throttle check, `send_shadow_request`, and on an unauthorized error
exactly one `login()` followed by one retried `send_shadow_request`
inside a nested `try` whose `except AqualinkServiceException` sets
`online` to unknown and re-raises; an ordinary service error on the first
fetch also sets `online` to unknown and re-raises. -/
def updateShadowSys (parse : SysState → JVal → SysState × Except ParseErr Unit)
    (st : SysState) (env : ShadowEnv) : UpdateResult :=
  if env.now - st.last_refresh < MIN_SECS_TO_REFRESH then
    ⟨st, .ok (), 0, 0, 0⟩
  else
    match env.fetch1 with
    | .err .service =>
        ⟨{ st with online := none }, .error (.transport .service), 1, 1, 0⟩
    | .err .unauthorized =>
        match env.loginResult with
        | some e => ⟨{ st with online := none }, .error (.transport e), 1, 1, 1⟩
        | none =>
          match env.fetch2 with
          | .err e => ⟨{ st with online := none }, .error (.transport e), 1, 2, 1⟩
          | .ok r1 => shadowParsePhase parse st env r1 2 1
    | .ok r1 => shadowParsePhase parse st env r1 1 0

/-- Refresh cycle `eXOChlorinator.update` from `system.py`. -/
def eXOChlorinator.update (st : SysState) (env : ShadowEnv) : UpdateResult :=
  updateShadowSys parse_shadow_response_exo st env

/-- Refresh cycle `zs500Heater.update` from `system.py`. -/
def zs500Heater.update (st : SysState) (env : ShadowEnv) : UpdateResult :=
  updateShadowSys parse_shadow_response_zs500 st env

/-- Callback `AqualinkClient.MQTT_client_onOffline` from `client.py`: when the
MQTT push channel disconnects, every registered system is flagged
`online = False` (before new tokens are fetched). -/
def MQTT_client_onOffline (st : SysState) : SysState :=
  { st with online := some false }

/-- Every operation of the system that can touch one controller's state:
the three families' `update()` cycles, the polling family's setters
(which re-parse the synchronous response), the shadow families' setters
(which only publish a desired document) and the MQTT offline callback. -/
inductive SysEvent where
  | updateIaqua (env : PoolEnv)
  | updateExo (env : ShadowEnv)
  | updateZs500 (env : ShadowEnv)
  | poolSetHome (resp : FetchOutcome)
  | poolSetDevices (resp : FetchOutcome)
  | shadowSetDesired
  | mqttOffline

/-- The state transition of one event (a failing setter request raises
before any parse, leaving the state unchanged). -/
def stepEvent (st : SysState) (e : SysEvent) : SysState :=
  match e with
  | .updateIaqua env => (AqualinkPoolSystem.update st env).state
  | .updateExo env => (eXOChlorinator.update st env).state
  | .updateZs500 env => (zs500Heater.update st env).state
  | .poolSetHome (.ok r) => (parse_home_response st r).1
  | .poolSetHome (.err _) => st
  | .poolSetDevices (.ok r) => (parse_devices_response st r).1
  | .poolSetDevices (.err _) => st
  | .shadowSetDesired => st
  | .mqttOffline => MQTT_client_onOffline st

/-- The classified outcome of an event, when the event is a refresh
cycle: the exception (or success) its `update()` call produced. -/
def eventOutcome (st : SysState) (e : SysEvent) : Option (Except UpdateErr Unit) :=
  match e with
  | .updateIaqua env => some (AqualinkPoolSystem.update st env).result
  | .updateExo env => some (eXOChlorinator.update st env).result
  | .updateZs500 env => some (zs500Heater.update st env).result
  | _ => none

/-- The `set_*` commands appearing across `system.py`. -/
inductive SetterName where
  | set_pump
  | set_heater
  | set_temps
  | set_aux
  | set_light
  | set_production
  | set_boost
  | set_low
deriving DecidableEq

/-- The three controller families registered in
`AqualinkSystem.from_data`. -/
inductive FamilyTag where
  | iaqua
  | exo
  | zs500
deriving DecidableEq

/-- The setter methods defined on the base class `AqualinkSystem`
(none). -/
def baseSetters : List SetterName := []

/-- The setter methods defined on each family class in `system.py`. -/
def familySetters : FamilyTag → List SetterName
  | .iaqua => [.set_pump, .set_heater, .set_temps, .set_aux, .set_light]
  | .exo => [.set_heater, .set_temps, .set_aux, .set_production, .set_boost, .set_low]
  | .zs500 => [.set_heater, .set_temps]

/-- What a `system.set_xyz(...)` call does at the language level:
Python method resolution finds the method on the family class or the base
class and calls it, otherwise the attribute lookup itself raises
`AttributeError`. `unsupportedSignal` stands for a dedicated
"unsupported operation" exception of the error taxonomy (never produced
by this code base). -/
inductive SetterCallOutcome where
  | methodCalled
  | attributeError
  | unsupportedSignal
deriving DecidableEq

/-- Invoking a setter on a controller family. -/
def invokeSetter (f : FamilyTag) (s : SetterName) : SetterCallOutcome :=
  if s ∈ familySetters f ∨ s ∈ baseSetters then .methodCalled else .attributeError

/-- The per-cycle contract of spec section 4.1's transition table, as a
predicate on one update call's outcome. -/
def refreshOutcomeContract (st : SysState) (nowEnd : Int) (r : UpdateResult) : Prop :=
  (r.result = .ok () → r.state.online = some true ∧ r.state.last_refresh = nowEnd) ∧
  (∀ te, r.result = .error (.transport te) →
     r.state.online = none ∧ r.state.last_refresh = st.last_refresh) ∧
  (r.result = .error (.parse .systemOffline) →
     r.state.online = some false ∧ r.state.last_refresh = st.last_refresh) ∧
  (∀ pe, pe ≠ ParseErr.systemOffline → r.result = .error (.parse pe) →
     r.state.online = st.online ∧ r.state.last_refresh = st.last_refresh)

/-- The refresh-cycle claim of C1 on one non-throttled update call:
success sets `online` to true and advances `last_refresh` to the closing
clock reading; a transport failure sets `online` to unknown and leaves
`last_refresh` unchanged; an offline-marker parse sets `online` to false
and leaves `last_refresh` unchanged. -/
def refreshCycleClaim (st : SysState) (nowEnd : Int) (r : UpdateResult) : Prop :=
  (r.result = .ok () → r.state.online = some true ∧ r.state.last_refresh = nowEnd ∧
     st.last_refresh < r.state.last_refresh) ∧
  (∀ te, r.result = .error (.transport te) →
     r.state.online = none ∧ r.state.last_refresh = st.last_refresh) ∧
  (r.result = .error (.parse .systemOffline) →
     r.state.online = some false ∧ r.state.last_refresh = st.last_refresh)

/-- The offline-marker check of `_parse_devices_response`:
`data["devices_screen"][0]["status"] == "Offline"` evaluates truthily. -/
def devicesOfflineMarker (data : JVal) : Bool :=
  match jget data "devices_screen" with
  | .ok ds =>
      match jidx ds 0 with
      | .ok x0 =>
          match jget x0 "status" with
          | .ok status => isStr status "Offline"
          | .error _ => false
      | .error _ => false
  | .error _ => false

/-- A parser preserves the registry: every device name present before the
parse is still present afterwards and still bound to the same object
(same identity), whatever the payload and however the parse ends. -/
def registryPreserving (parse : SysState → JVal → SysState × Except ParseErr Unit) :
    Prop :=
  ∀ (st : SysState) (data : JVal) (k : String) (dev : AqualinkDevice),
    alGet st.devices k = some dev →
    ∃ dev2, alGet ((parse st data).1).devices k = some dev2 ∧
      dev2.devId = dev.devId

theorem alGet_alSet_self {α : Type} (l : List (String × α)) (k : String) (v : α) :
    alGet (alSet l k v) k = some v := by
  induction l with
  | nil => simp [alSet, alGet]
  | cons p t ih =>
      obtain ⟨k1, v1⟩ := p
      by_cases hk : k1 = k <;> simp [alSet, alGet, hk, ih]

theorem alGet_alSet_ne {α : Type} (l : List (String × α)) (k k1 : String) (v : α)
    (h : k1 ≠ k) : alGet (alSet l k v) k1 = alGet l k1 := by
  induction l with
  | nil => simp [alSet, alGet, Ne.symm h]
  | cons p t ih =>
      obtain ⟨k2, v2⟩ := p
      by_cases hk : k2 = k
      · simp [alSet, alGet, hk, Ne.symm h]
      · simp [alSet, alGet, hk, ih]

theorem alSet_of_alGet_eq {α : Type} (l : List (String × α)) (k : String) (v : α)
    (h : alGet l k = some v) : alSet l k v = l := by
  induction l with
  | nil => simp [alGet] at h
  | cons p t ih =>
      obtain ⟨k1, v1⟩ := p
      by_cases hk : k1 = k
      · subst hk
        simp [alGet] at h
        simp [alSet, h]
      · simp [alGet, hk] at h
        simp [alSet, hk, ih h]

theorem alHasKey_false_iff {α : Type} (l : List (String × α)) (k : String) :
    alHasKey l k = false ↔ alGet l k = none := by
  cases h : alGet l k <;> simp [alHasKey, h]

theorem shapeAgreeD_alSet (rest : List (String × JVal)) (es : List (String × DNode))
    (k : String) (x : DNode) (h : alHasKey rest k = false) :
    shapeAgreeD (.node (alSet es k x)) rest = shapeAgreeD (.node es) rest := by
  induction rest with
  | nil => simp [shapeAgreeD]
  | cons p t ih =>
      obtain ⟨k1, v1⟩ := p
      have hne : k1 ≠ k := by
        intro he
        subst he
        simp [alHasKey, alGet] at h
      have ht : alHasKey t k = false := by
        simp [alHasKey, alGet, hne] at h
        simp [alHasKey, h]
      cases v1 <;> simp [shapeAgreeD, alGet_alSet_ne _ _ _ _ hne, ih ht]

theorem update_absent_paths (d : DNode) (u : List (String × JVal)) (ver md : Option JVal) :
    keysOkL u = true →
    ∀ dres, Shadow.update d u ver md = .ok dres →
    ∀ p, uHasPath u p = false → dGetPath dres p = dGetPath d p := by
  induction d, u, ver, md using Shadow.update.induct with
  | case1 d ver md =>
      intro _ dres hok p _
      simp [Shadow.update] at hok
      subst hok
      rfl
  | case2 ld k tail ver md entries =>
      intro _ dres hok p _
      simp [Shadow.update] at hok
  | case3 ld k v tail ver md hnotobj =>
      intro _ dres hok p _
      cases v <;> simp [Shadow.update] at hok
  | case4 es k rest ver md entries e hmd =>
      intro _ dres hok p _
      simp [Shadow.update, hmd] at hok
  | case5 es k rest ver md entries mdk hmd e hsub ih1 =>
      intro _ dres hok p _
      simp [Shadow.update, hmd, hsub] at hok
  | case6 es k rest ver md entries mdk hmd sub hsub ih1 ih2 =>
      intro hk dres hok p hp
      simp only [Shadow.update, hmd, hsub] at hok
      simp only [keysOkL, Bool.and_eq_true, Bool.not_eq_true'] at hk
      obtain ⟨⟨hrk, hke⟩, hkr⟩ := hk
      match p with
      | [] => simp [uHasPath] at hp
      | k1 :: ks =>
        by_cases hkk : k1 = k
        · subst hkk
          simp only [uHasPath, alGet, if_pos rfl] at hp
          have h2 := ih2 hkr dres hok (k1 :: ks)
            (by simp [uHasPath, (alHasKey_false_iff rest k1).mp hrk])
          rw [h2]
          have h3 : dGetPath (DNode.node (alSet es k1 sub)) (k1 :: ks) = dGetPath sub ks := by
            simp [dGetPath, alGet_alSet_self]
          rw [h3]
          have h1 := ih1 hke sub hsub ks hp
          rw [h1]
          cases halg : alGet es k1 with
          | some d1 => simp [dGetPath, halg]
          | none =>
            simp only [halg, Option.getD_none]
            match ks with
            | [] => simp [uHasPath] at hp
            | k2 :: ks2 => simp [dGetPath, alGet, halg]
        · have hp2 : uHasPath rest (k1 :: ks) = false := by
            simp only [uHasPath, alGet, if_neg (Ne.symm hkk)] at hp
            simp only [uHasPath]
            exact hp
          have h2 := ih2 hkr dres hok (k1 :: ks) hp2
          rw [h2]
          simp [dGetPath, alGet_alSet_ne _ _ _ _ hkk]
  | case7 es k v rest ver md nd halg hnotobj =>
      intro _ dres hok p _
      cases v <;> simp [Shadow.update, halg] at hok <;> exact (hnotobj _ rfl).elim
  | case8 es k v rest ver md e hmd hnotobj hnotnode =>
      intro _ dres hok p _
      cases halg : alGet es k with
      | none => cases v <;> simp [Shadow.update, halg, hmd] at hok <;> exact (hnotobj _ rfl).elim
      | some d2 =>
        cases d2 with
        | node nd => exact (hnotnode _ halg).elim
        | leaf ld => cases v <;> simp [Shadow.update, halg, hmd] at hok <;> exact (hnotobj _ rfl).elim
  | case9 es k v rest ver md mdk hmd hnotobj hnotnode ih =>
      intro hk dres hok p hp
      simp only [keysOkL, Bool.and_eq_true, Bool.not_eq_true'] at hk
      obtain ⟨⟨hrk, _⟩, hkr⟩ := hk
      have hok2 : Shadow.update (.node (alSet es k (.leaf ⟨some v, ver, mdk⟩))) rest ver md
          = .ok dres := by
        cases halg : alGet es k with
        | none => cases v <;> simp [Shadow.update, halg, hmd] at hok <;>
            first | exact (hnotobj _ rfl).elim | exact hok
        | some d2 =>
          cases d2 with
          | node nd => exact (hnotnode _ halg).elim
          | leaf ld => cases v <;> simp [Shadow.update, halg, hmd] at hok <;>
              first | exact (hnotobj _ rfl).elim | exact hok
      match p with
      | [] => simp [uHasPath] at hp
      | k1 :: ks =>
        by_cases hkk : k1 = k
        · subst hkk
          have : uHasPath ((k1, v) :: rest) (k1 :: ks) = true := by
            cases v <;> simp [uHasPath, alGet] <;> exact (hnotobj _ rfl).elim
          rw [this] at hp
          exact absurd hp (by simp)
        · have hp2 : uHasPath rest (k1 :: ks) = false := by
            simp only [uHasPath, alGet, if_neg (Ne.symm hkk)] at hp
            simp only [uHasPath]
            exact hp
          have h2 := ih hkr dres hok2 (k1 :: ks) hp2
          rw [h2]
          simp [dGetPath, alGet_alSet_ne _ _ _ _ hkk]

theorem update_cons_step_nonobj (es : List (String × DNode)) (k0 : String) (v0 : JVal)
    (rest : List (String × JVal)) (ver md : Option JVal) (hno : v0.isObj = false) :
    (∃ e, Shadow.update (.node es) ((k0, v0) :: rest) ver md = .error e) ∨
    (∃ x, Shadow.update (.node es) ((k0, v0) :: rest) ver md
        = Shadow.update (.node (alSet es k0 x)) rest ver md) := by
  cases halg : alGet es k0 with
  | some d2 =>
    cases d2 with
    | node nd =>
      refine .inl ⟨.attributeError, ?_⟩
      cases v0 <;> simp [JVal.isObj] at hno <;> simp [Shadow.update, halg]
    | leaf ld =>
      cases hmd : mdGetK md k0 with
      | error e =>
        refine .inl ⟨e, ?_⟩
        cases v0 <;> simp [JVal.isObj] at hno <;> simp [Shadow.update, halg, hmd]
      | ok mdk =>
        refine .inr ⟨.leaf ⟨some v0, ver, mdk⟩, ?_⟩
        cases v0 <;> simp [JVal.isObj] at hno <;> simp [Shadow.update, halg, hmd]
  | none =>
    cases hmd : mdGetK md k0 with
    | error e =>
      refine .inl ⟨e, ?_⟩
      cases v0 <;> simp [JVal.isObj] at hno <;> simp [Shadow.update, halg, hmd]
    | ok mdk =>
      refine .inr ⟨.leaf ⟨some v0, ver, mdk⟩, ?_⟩
      cases v0 <;> simp [JVal.isObj] at hno <;> simp [Shadow.update, halg, hmd]

theorem update_cons_step (es : List (String × DNode)) (k0 : String) (v0 : JVal)
    (rest : List (String × JVal)) (ver md : Option JVal) :
    (∃ e, Shadow.update (.node es) ((k0, v0) :: rest) ver md = .error e) ∨
    (∃ x, Shadow.update (.node es) ((k0, v0) :: rest) ver md
        = Shadow.update (.node (alSet es k0 x)) rest ver md) := by
  cases v0
  case jobj ves =>
    cases hmd : mdGetK md k0 with
    | error e => exact .inl ⟨e, by simp [Shadow.update, hmd]⟩
    | ok mdk =>
      cases hin : Shadow.update ((alGet es k0).getD (.node [])) ves ver mdk with
      | error e => exact .inl ⟨e, by simp [Shadow.update, hmd, hin]⟩
      | ok sub => exact .inr ⟨sub, by simp [Shadow.update, hmd, hin]⟩
  all_goals exact update_cons_step_nonobj _ _ _ _ _ _ (by simp [JVal.isObj])

theorem update_err_of_obj_onto_leaf (u : List (String × JVal)) :
    ∀ (es : List (String × DNode)) (ver md : Option JVal) (k : String)
      (vs : List (String × JVal)) (ld : LockedData),
      alGet u k = some (.jobj vs) → vs ≠ [] → alGet es k = some (.leaf ld) →
      ∃ e, Shadow.update (.node es) u ver md = .error e := by
  induction u with
  | nil => intro es ver md k vs ld hu _ _; simp [alGet] at hu
  | cons p rest ih =>
      obtain ⟨k0, v0⟩ := p
      intro es ver md k vs ld hu hvs hes
      by_cases hk : k0 = k
      · subst hk
        simp only [alGet, eq_self_iff_true, if_true, Option.some.injEq] at hu
        subst hu
        cases hmd : mdGetK md k0 with
        | error e => exact ⟨e, by simp [Shadow.update, hmd]⟩
        | ok mdk =>
          match vs, hvs with
          | (qk, qv) :: qs, _ =>
            have hinner : ∃ e2, Shadow.update (.leaf ld) ((qk, qv) :: qs) ver mdk
                = .error e2 := by
              cases qv with
              | jobj w => exact ⟨.attributeError, by simp [Shadow.update]⟩
              | jnum n => exact ⟨.typeError, by simp [Shadow.update]⟩
              | jstr s2 => exact ⟨.typeError, by simp [Shadow.update]⟩
              | jbool b => exact ⟨.typeError, by simp [Shadow.update]⟩
              | jnull => exact ⟨.typeError, by simp [Shadow.update]⟩
              | jarr xs => exact ⟨.typeError, by simp [Shadow.update]⟩
            obtain ⟨e2, he2⟩ := hinner
            exact ⟨e2, by simp [Shadow.update, hmd, hes, he2]⟩
      · have hu2 : alGet rest k = some (.jobj vs) := by
          simp only [alGet, if_neg hk] at hu
          exact hu
        rcases update_cons_step es k0 v0 rest ver md with ⟨e, he⟩ | ⟨x, hx⟩
        · exact ⟨e, he⟩
        · rw [hx]
          exact ih (alSet es k0 x) ver md k vs ld hu2 hvs
            (by rw [alGet_alSet_ne _ _ _ _ (fun h2 => hk h2.symm)]; exact hes)

theorem update_err_of_leaf_onto_node (u : List (String × JVal)) :
    ∀ (es : List (String × DNode)) (ver md : Option JVal) (k : String)
      (v : JVal) (nd : List (String × DNode)),
      alGet u k = some v → v.isObj = false → alGet es k = some (.node nd) →
      ∃ e, Shadow.update (.node es) u ver md = .error e := by
  induction u with
  | nil => intro es ver md k v nd hu _ _; simp [alGet] at hu
  | cons p rest ih =>
      obtain ⟨k0, v0⟩ := p
      intro es ver md k v nd hu hobj hes
      by_cases hk : k0 = k
      · subst hk
        simp only [alGet, eq_self_iff_true, if_true, Option.some.injEq] at hu
        subst hu
        cases v0 <;> simp [JVal.isObj] at hobj <;>
          exact ⟨.attributeError, by simp [Shadow.update, hes]⟩
      · have hu2 : alGet rest k = some v := by
          simp only [alGet, if_neg hk] at hu
          exact hu
        rcases update_cons_step es k0 v0 rest ver md with ⟨e, he⟩ | ⟨x, hx⟩
        · exact ⟨e, he⟩
        · rw [hx]
          exact ih (alSet es k0 x) ver md k v nd hu2 hobj
            (by rw [alGet_alSet_ne _ _ _ _ (fun h2 => hk h2.symm)]; exact hes)

theorem update_ok_of_shape (d : DNode) (u : List (String × JVal)) (ver md : Option JVal) :
    md = none → keysOkL u = true → shapeAgreeD d u = true →
    ∃ d2, Shadow.update d u ver md = .ok d2 := by
  induction d, u, ver, md using Shadow.update.induct with
  | case1 d ver md => exact fun _ _ _ => ⟨d, by simp [Shadow.update]⟩
  | case2 ld k0 tail ver md entries =>
      intro _ _ hs
      simp [shapeAgreeD] at hs
  | case3 ld k0 v tail ver md hnotobj =>
      intro _ _ hs
      simp [shapeAgreeD] at hs
  | case4 es k0 rest ver md entries e hmd =>
      intro hmdn _ _
      subst hmdn
      simp [mdGetK] at hmd
  | case5 es k0 rest ver md entries mdk hmd e hsub ih1 =>
      intro hmdn hk hs
      subst hmdn
      have hmdk : mdk = none := by
        simp [mdGetK] at hmd
        exact hmd.symm
      subst hmdk
      simp only [keysOkL, Bool.and_eq_true, Bool.not_eq_true'] at hk
      obtain ⟨⟨hrk, hke⟩, hkr⟩ := hk
      simp only [shapeAgreeD, Bool.and_eq_true] at hs
      obtain ⟨hs1, hs2⟩ := hs
      cases halg : alGet es k0 with
      | some d2 =>
        cases d2 with
        | leaf ld =>
          rw [halg] at hs1
          have hemp : entries = [] := by simpa using hs1
          subst hemp
          simp [Shadow.update, halg] at hsub
        | node sub2 =>
          rw [halg] at hs1
          obtain ⟨d3, hd3⟩ := ih1 rfl hke (by simpa [halg] using hs1)
          rw [hd3] at hsub
          exact absurd hsub (by simp)
      | none =>
        rw [halg] at hs1
        obtain ⟨d3, hd3⟩ := ih1 rfl hke (by simpa [halg] using hs1)
        rw [hd3] at hsub
        exact absurd hsub (by simp)
  | case6 es k0 rest ver md entries mdk hmd sub hsub ih1 ih2 =>
      intro hmdn hk hs
      subst hmdn
      simp only [keysOkL, Bool.and_eq_true, Bool.not_eq_true'] at hk
      obtain ⟨⟨hrk, hke⟩, hkr⟩ := hk
      simp only [shapeAgreeD, Bool.and_eq_true] at hs
      obtain ⟨hs1, hs2⟩ := hs
      obtain ⟨d2, hd2⟩ := ih2 rfl hkr (by rw [shapeAgreeD_alSet _ _ _ _ hrk]; exact hs2)
      exact ⟨d2, by simp [Shadow.update, hmd, hsub, hd2]⟩
  | case7 es k0 v rest ver md nd halg hnotobj =>
      intro _ _ hs
      simp only [shapeAgreeD, Bool.and_eq_true] at hs
      obtain ⟨hs1, _⟩ := hs
      cases v with
      | jobj w => exact (hnotobj _ rfl).elim
      | jnum n => rw [halg] at hs1; simp at hs1
      | jstr s2 => rw [halg] at hs1; simp at hs1
      | jbool b => rw [halg] at hs1; simp at hs1
      | jnull => rw [halg] at hs1; simp at hs1
      | jarr xs => rw [halg] at hs1; simp at hs1
  | case8 es k0 v rest ver md e hmd hnotobj hnotnode =>
      intro hmdn _ _
      subst hmdn
      simp [mdGetK] at hmd
  | case9 es k0 v rest ver md mdk hmd hnotobj hnotnode ih =>
      intro hmdn hk hs
      subst hmdn
      simp only [keysOkL, Bool.and_eq_true, Bool.not_eq_true'] at hk
      obtain ⟨⟨hrk, _⟩, hkr⟩ := hk
      simp only [shapeAgreeD, Bool.and_eq_true] at hs
      obtain ⟨_, hs2⟩ := hs
      obtain ⟨d2, hd2⟩ := ih rfl hkr (by rw [shapeAgreeD_alSet _ _ _ _ hrk]; exact hs2)
      refine ⟨d2, ?_⟩
      cases halg : alGet es k0 with
      | none =>
        cases v <;> first
          | exact (hnotobj _ rfl).elim
          | (simp only [Shadow.update, halg, hmd]; exact hd2)
      | some d3 =>
        cases d3 with
        | node nd => exact (hnotnode _ halg).elim
        | leaf ld =>
          cases v <;> first
            | exact (hnotobj _ rfl).elim
            | (simp only [Shadow.update, halg, hmd]; exact hd2)

theorem upsertDevices_online (st : SysState) (flat : List (String × List (String × JVal))) :
    (upsertDevices st flat).online = st.online := by
  induction flat generalizing st with
  | nil => rfl
  | cons p rest ih =>
      simp only [upsertDevices, List.foldl] at ih ⊢
      cases alGet st.devices p.1 <;> simp [ih]

theorem upsertDevices_last_refresh (st : SysState)
    (flat : List (String × List (String × JVal))) :
    (upsertDevices st flat).last_refresh = st.last_refresh := by
  induction flat generalizing st with
  | nil => rfl
  | cons p rest ih =>
      simp only [upsertDevices, List.foldl] at ih ⊢
      cases alGet st.devices p.1 <;> simp [ih]

theorem upsertDevices_devId (flat : List (String × List (String × JVal))) :
    ∀ (st : SysState) (k : String) (dev : AqualinkDevice),
      alGet st.devices k = some dev →
      ∃ dev2, alGet (upsertDevices st flat).devices k = some dev2 ∧
        dev2.devId = dev.devId := by
  induction flat with
  | nil => intro st k dev h; exact ⟨dev, h, rfl⟩
  | cons p rest ih =>
      intro st k dev h
      by_cases hk : p.1 = k
      · subst hk
        have h2 : alGet (alSet st.devices p.1 ⟨dev.devId, mergeAttrs dev.data p.2⟩) p.1
            = some ⟨dev.devId, mergeAttrs dev.data p.2⟩ := alGet_alSet_self _ _ _
        obtain ⟨dev2, hd2, hid⟩ :=
          ih { st with devices := alSet st.devices p.1 ⟨dev.devId, mergeAttrs dev.data p.2⟩ }
            p.1 _ h2
        refine ⟨dev2, ?_, hid⟩
        simp only [upsertDevices, List.foldl, h] at hd2 ⊢
        exact hd2
      · cases halg : alGet st.devices p.1 with
        | some dev0 =>
            have h2 : alGet (alSet st.devices p.1 ⟨dev0.devId, mergeAttrs dev0.data p.2⟩) k
                = some dev := by
              rw [alGet_alSet_ne _ _ _ _ (fun h2 => hk h2.symm)]
              exact h
            obtain ⟨dev2, hd2, hid⟩ :=
              ih { st with devices := alSet st.devices p.1 ⟨dev0.devId, mergeAttrs dev0.data p.2⟩ }
                k _ h2
            refine ⟨dev2, ?_, hid⟩
            simp only [upsertDevices, List.foldl, halg] at hd2 ⊢
            exact hd2
        | none =>
            have h2 : alGet (alSet st.devices p.1 ⟨st.nextId, p.2⟩) k = some dev := by
              rw [alGet_alSet_ne _ _ _ _ (fun h2 => hk h2.symm)]
              exact h
            obtain ⟨dev2, hd2, hid⟩ :=
              ih { st with devices := alSet st.devices p.1 ⟨st.nextId, p.2⟩,
                           nextId := st.nextId + 1 }
                k _ h2
            refine ⟨dev2, ?_, hid⟩
            simp only [upsertDevices, List.foldl, halg] at hd2 ⊢
            exact hd2

theorem parse_home_fields (st : SysState) (data : JVal) :
    (parse_home_response st data).1.online = st.online ∧
    (parse_home_response st data).1.last_refresh = st.last_refresh := by
  unfold parse_home_response
  repeat' split
  all_goals simp [upsertDevices_online, upsertDevices_last_refresh]

theorem parse_devices_fields (st : SysState) (data : JVal) :
    (parse_devices_response st data).1.online = st.online ∧
    (parse_devices_response st data).1.last_refresh = st.last_refresh := by
  unfold parse_devices_response
  repeat' split
  all_goals simp [upsertDevices_online, upsertDevices_last_refresh]

theorem parse_exo_fields (st : SysState) (data : JVal) :
    (parse_shadow_response_exo st data).1.online = st.online ∧
    (parse_shadow_response_exo st data).1.last_refresh = st.last_refresh := by
  unfold parse_shadow_response_exo
  repeat' split
  all_goals simp [upsertDevices_online, upsertDevices_last_refresh]

theorem parse_zs500_fields (st : SysState) (data : JVal) :
    (parse_shadow_response_zs500 st data).1.online = st.online ∧
    (parse_shadow_response_zs500 st data).1.last_refresh = st.last_refresh := by
  unfold parse_shadow_response_zs500
  repeat' split
  all_goals simp [upsertDevices_online, upsertDevices_last_refresh]

theorem parse_home_devId (st : SysState) (data : JVal) (k : String)
    (dev : AqualinkDevice) (h : alGet st.devices k = some dev) :
    ∃ dev2, alGet (parse_home_response st data).1.devices k = some dev2 ∧
      dev2.devId = dev.devId := by
  unfold parse_home_response
  repeat' split
  all_goals first
    | exact ⟨dev, h, rfl⟩
    | exact upsertDevices_devId _ _ _ _ h

theorem parse_devices_devId (st : SysState) (data : JVal) (k : String)
    (dev : AqualinkDevice) (h : alGet st.devices k = some dev) :
    ∃ dev2, alGet (parse_devices_response st data).1.devices k = some dev2 ∧
      dev2.devId = dev.devId := by
  unfold parse_devices_response
  repeat' split
  all_goals first
    | exact ⟨dev, h, rfl⟩
    | exact upsertDevices_devId _ _ _ _ h

theorem parse_exo_devId (st : SysState) (data : JVal) (k : String)
    (dev : AqualinkDevice) (h : alGet st.devices k = some dev) :
    ∃ dev2, alGet (parse_shadow_response_exo st data).1.devices k = some dev2 ∧
      dev2.devId = dev.devId := by
  unfold parse_shadow_response_exo
  repeat' split
  all_goals first
    | exact ⟨dev, h, rfl⟩
    | exact upsertDevices_devId _ _ _ _ h

theorem parse_zs500_devId (st : SysState) (data : JVal) (k : String)
    (dev : AqualinkDevice) (h : alGet st.devices k = some dev) :
    ∃ dev2, alGet (parse_shadow_response_zs500 st data).1.devices k = some dev2 ∧
      dev2.devId = dev.devId := by
  unfold parse_shadow_response_zs500
  repeat' split
  all_goals first
    | exact ⟨dev, h, rfl⟩
    | exact upsertDevices_devId _ _ _ _ h

theorem poolUpdate_throttled (st : SysState) (env : PoolEnv)
    (h : env.now - st.last_refresh < MIN_SECS_TO_REFRESH) :
    AqualinkPoolSystem.update st env = ⟨st, .ok (), 0, 0, 0⟩ := by
  simp [AqualinkPoolSystem.update, h]

theorem shadowUpdate_throttled (parse : SysState → JVal → SysState × Except ParseErr Unit)
    (st : SysState) (env : ShadowEnv)
    (h : env.now - st.last_refresh < MIN_SECS_TO_REFRESH) :
    updateShadowSys parse st env = ⟨st, .ok (), 0, 0, 0⟩ := by
  simp [updateShadowSys, h]

theorem poolUpdate_contract (st : SysState) (env : PoolEnv)
    (hth : MIN_SECS_TO_REFRESH ≤ env.now - st.last_refresh) :
    refreshOutcomeContract st env.nowEnd (AqualinkPoolSystem.update st env) := by
  unfold AqualinkPoolSystem.update
  rw [if_neg (not_lt.mpr hth)]
  cases hhome : env.homeResp with
  | err e =>
      refine ⟨?_, ?_, ?_, ?_⟩ <;> intros <;> simp_all [refreshOutcomeContract]
  | ok r1 =>
    cases hdev : env.devResp with
    | err e =>
        refine ⟨?_, ?_, ?_, ?_⟩ <;> intros <;> simp_all [refreshOutcomeContract]
    | ok r2 =>
      rcases hp1 : parse_home_response st r1 with ⟨st1, p1⟩
      have hf1 : st1.online = st.online ∧ st1.last_refresh = st.last_refresh := by
        have := parse_home_fields st r1
        rw [hp1] at this
        exact this
      cases p1 with
      | error e1 =>
          cases e1 <;>
            refine ⟨?_, ?_, ?_, ?_⟩ <;> intros <;>
              simp_all <;> simp_all [hf1.1, hf1.2]
      | ok u =>
        rcases hp2 : parse_devices_response st1 r2 with ⟨st2, p2⟩
        have hf2 : st2.online = st1.online ∧ st2.last_refresh = st1.last_refresh := by
          have := parse_devices_fields st1 r2
          rw [hp2] at this
          exact this
        cases p2 with
        | error e2 =>
            cases e2 <;>
              refine ⟨?_, ?_, ?_, ?_⟩ <;> intros <;>
                simp_all <;> simp_all [hf1.1, hf1.2, hf2.1, hf2.2]
        | ok u2 =>
            refine ⟨?_, ?_, ?_, ?_⟩ <;> intros <;> simp_all

theorem shadowParsePhase_contract
    (parse : SysState → JVal → SysState × Except ParseErr Unit)
    (hf : ∀ s d, (parse s d).1.online = s.online ∧ (parse s d).1.last_refresh = s.last_refresh)
    (st : SysState) (env : ShadowEnv) (r1 : JVal) (f l : Nat) :
    refreshOutcomeContract st env.nowEnd (shadowParsePhase parse st env r1 f l) := by
  unfold shadowParsePhase
  rcases hp1 : parse st r1 with ⟨st1, p1⟩
  have hf1 : st1.online = st.online ∧ st1.last_refresh = st.last_refresh := by
    have := hf st r1
    rw [hp1] at this
    exact this
  cases p1 with
  | error e1 =>
      cases e1 <;>
        refine ⟨?_, ?_, ?_, ?_⟩ <;> intros <;>
          simp_all <;> simp_all [hf1.1, hf1.2]
  | ok u =>
      refine ⟨?_, ?_, ?_, ?_⟩ <;> intros <;> simp_all

theorem shadowUpdate_contract
    (parse : SysState → JVal → SysState × Except ParseErr Unit)
    (hf : ∀ s d, (parse s d).1.online = s.online ∧ (parse s d).1.last_refresh = s.last_refresh)
    (st : SysState) (env : ShadowEnv)
    (hth : MIN_SECS_TO_REFRESH ≤ env.now - st.last_refresh) :
    refreshOutcomeContract st env.nowEnd (updateShadowSys parse st env) := by
  unfold updateShadowSys
  rw [if_neg (not_lt.mpr hth)]
  cases hfe : env.fetch1 with
  | ok r1 => exact shadowParsePhase_contract parse hf st env r1 1 0
  | err e =>
    cases e with
    | service => refine ⟨?_, ?_, ?_, ?_⟩ <;> intros <;> simp_all [refreshOutcomeContract]
    | unauthorized =>
      cases hlg : env.loginResult with
      | some e2 =>
          refine ⟨?_, ?_, ?_, ?_⟩ <;> intros <;> simp_all [refreshOutcomeContract]
      | none =>
        cases hf2 : env.fetch2 with
        | ok r1 => exact shadowParsePhase_contract parse hf st env r1 2 1
        | err e2 =>
            refine ⟨?_, ?_, ?_, ?_⟩ <;> intros <;> simp_all [refreshOutcomeContract]

theorem poolUpdate_logins (st : SysState) (env : PoolEnv) :
    (AqualinkPoolSystem.update st env).logins = 0 := by
  unfold AqualinkPoolSystem.update
  repeat' split
  all_goals rfl

theorem poolUpdate_cycles_le (st : SysState) (env : PoolEnv) :
    (AqualinkPoolSystem.update st env).fetchCycles ≤ 1 := by
  unfold AqualinkPoolSystem.update
  repeat' split
  all_goals simp

theorem shadowUpdate_cycles_le (parse : SysState → JVal → SysState × Except ParseErr Unit)
    (st : SysState) (env : ShadowEnv) :
    (updateShadowSys parse st env).fetchCycles ≤ 1 := by
  unfold updateShadowSys shadowParsePhase
  repeat' split
  all_goals simp

theorem poolUpdate_ok_cases (st : SysState) (env : PoolEnv)
    (hok : (AqualinkPoolSystem.update st env).result = .ok ()) :
    AqualinkPoolSystem.update st env = ⟨st, .ok (), 0, 0, 0⟩ ∨
    ((AqualinkPoolSystem.update st env).state.last_refresh = env.nowEnd ∧
     (AqualinkPoolSystem.update st env).fetchCycles = 1) := by
  by_cases hth : env.now - st.last_refresh < MIN_SECS_TO_REFRESH
  · exact .inl (poolUpdate_throttled st env hth)
  · refine .inr ?_
    unfold AqualinkPoolSystem.update at hok ⊢
    rw [if_neg hth] at hok ⊢
    cases hhome : env.homeResp with
    | err e => simp [hhome] at hok
    | ok r1 =>
      cases hdev : env.devResp with
      | err e => simp [hhome, hdev] at hok
      | ok r2 =>
        rcases hp1 : parse_home_response st r1 with ⟨st1, p1⟩
        cases p1 with
        | error e1 => cases e1 <;> simp [hhome, hdev, hp1] at hok
        | ok u =>
          rcases hp2 : parse_devices_response st1 r2 with ⟨st2, p2⟩
          cases p2 with
          | error e2 => cases e2 <;> simp [hhome, hdev, hp1, hp2] at hok
          | ok u2 => simp [hhome, hdev, hp1, hp2]

theorem shadowUpdate_ok_cases (parse : SysState → JVal → SysState × Except ParseErr Unit)
    (st : SysState) (env : ShadowEnv)
    (hok : (updateShadowSys parse st env).result = .ok ()) :
    updateShadowSys parse st env = ⟨st, .ok (), 0, 0, 0⟩ ∨
    ((updateShadowSys parse st env).state.last_refresh = env.nowEnd ∧
     (updateShadowSys parse st env).fetchCycles = 1) := by
  by_cases hth : env.now - st.last_refresh < MIN_SECS_TO_REFRESH
  · exact .inl (shadowUpdate_throttled parse st env hth)
  · refine .inr ?_
    unfold updateShadowSys shadowParsePhase at hok ⊢
    rw [if_neg hth] at hok ⊢
    cases hfe : env.fetch1 with
    | ok r1 =>
      rcases hp1 : parse st r1 with ⟨st1, p1⟩
      cases p1 with
      | error e1 => cases e1 <;> simp [hfe, hp1] at hok
      | ok u => simp [hfe, hp1]
    | err e =>
      cases e with
      | service => simp [hfe] at hok
      | unauthorized =>
        cases hlg : env.loginResult with
        | some e2 => simp [hfe, hlg] at hok
        | none =>
          cases hf2 : env.fetch2 with
          | err e2 => simp [hfe, hlg, hf2] at hok
          | ok r1 =>
            rcases hp1 : parse st r1 with ⟨st1, p1⟩
            cases p1 with
            | error e1 => cases e1 <;> simp [hfe, hlg, hf2, hp1] at hok
            | ok u => simp [hfe, hlg, hf2, hp1]

theorem update_two_calls_pool (st : SysState) (e1 e2 : PoolEnv)
    (hm1 : e1.now ≤ e1.nowEnd)
    (hgap : e2.now < e1.now + MIN_SECS_TO_REFRESH)
    (hok : (AqualinkPoolSystem.update st e1).result = .ok ()) :
    (AqualinkPoolSystem.update st e1).fetchCycles +
      (AqualinkPoolSystem.update (AqualinkPoolSystem.update st e1).state e2).fetchCycles
      ≤ 1 := by
  rcases poolUpdate_ok_cases st e1 hok with h0 | ⟨hlr, hc⟩
  · rw [h0]
    simpa using poolUpdate_cycles_le st e2
  · have hth2 : e2.now - (AqualinkPoolSystem.update st e1).state.last_refresh
        < MIN_SECS_TO_REFRESH := by
      rw [hlr]
      simp only [MIN_SECS_TO_REFRESH] at hgap ⊢
      omega
    rw [hc, poolUpdate_throttled _ _ hth2]
    simp

theorem update_two_calls_shadow (parse : SysState → JVal → SysState × Except ParseErr Unit)
    (st : SysState) (e1 e2 : ShadowEnv)
    (hm1 : e1.now ≤ e1.nowEnd)
    (hgap : e2.now < e1.now + MIN_SECS_TO_REFRESH)
    (hok : (updateShadowSys parse st e1).result = .ok ()) :
    (updateShadowSys parse st e1).fetchCycles +
      (updateShadowSys parse (updateShadowSys parse st e1).state e2).fetchCycles
      ≤ 1 := by
  rcases shadowUpdate_ok_cases parse st e1 hok with h0 | ⟨hlr, hc⟩
  · rw [h0]
    simpa using shadowUpdate_cycles_le parse st e2
  · have hth2 : e2.now - (updateShadowSys parse st e1).state.last_refresh
        < MIN_SECS_TO_REFRESH := by
      rw [hlr]
      simp only [MIN_SECS_TO_REFRESH] at hgap ⊢
      omega
    rw [hc, shadowUpdate_throttled _ _ _ hth2]
    simp

theorem shadowUpdate_relogin (parse : SysState → JVal → SysState × Except ParseErr Unit)
    (st : SysState) (env : ShadowEnv)
    (hth : ¬ env.now - st.last_refresh < MIN_SECS_TO_REFRESH)
    (hf1 : env.fetch1 = .err .unauthorized) :
    (updateShadowSys parse st env).logins = 1 ∧
    (env.loginResult = none → (updateShadowSys parse st env).shadowFetches = 2) ∧
    (∀ e, env.loginResult = some e →
       (updateShadowSys parse st env).shadowFetches = 1 ∧
       (updateShadowSys parse st env).result = .error (.transport e) ∧
       (updateShadowSys parse st env).state.online = none) ∧
    (∀ e, env.loginResult = none → env.fetch2 = .err e →
       (updateShadowSys parse st env).result = .error (.transport e) ∧
       (updateShadowSys parse st env).state.online = none) := by
  unfold updateShadowSys shadowParsePhase
  rw [if_neg hth]
  simp only [hf1]
  cases hlg : env.loginResult with
  | some e =>
      refine ⟨rfl, ?_, ?_, ?_⟩
      · intro h
        simp at h
      · intro e2 he2
        injection he2 with he2
        subst he2
        exact ⟨rfl, rfl, rfl⟩
      · intro e2 he2 _
        simp at he2
  | none =>
    cases hf2 : env.fetch2 with
    | err e2 =>
        refine ⟨rfl, fun _ => rfl, ?_, ?_⟩
        · intro e3 he3
          simp at he3
        · intro e3 _ hf3
          injection hf3 with hf3
          subst hf3
          exact ⟨rfl, rfl⟩
    | ok r1 =>
        rcases hp1 : parse st r1 with ⟨st1, p1⟩
        simp only [hp1]
        cases p1 with
        | error e1 =>
            cases e1 <;>
              exact ⟨rfl, fun _ => rfl,
                fun e3 he3 => by simp at he3,
                fun e3 _ hf3 => by simp at hf3⟩
        | ok u =>
            exact ⟨rfl, fun _ => rfl,
              fun e3 he3 => by simp at he3,
              fun e3 _ hf3 => by simp at hf3⟩

theorem shadowUpdate_sync_transfer
    (parse : SysState → JVal → SysState × Except ParseErr Unit)
    (st : SysState) (env : ShadowEnv) (r1 : JVal)
    (hth : ¬ env.now - st.last_refresh < MIN_SECS_TO_REFRESH)
    (hfe : env.fetch1 = .ok r1)
    (hp : (parse st r1).2 = .ok ()) :
    (updateShadowSys parse st env).state
      = { (parse st r1).1 with online := some true, last_refresh := env.nowEnd } ∧
    (updateShadowSys parse st env).result = .ok () := by
  unfold updateShadowSys shadowParsePhase
  rw [if_neg hth]
  simp only [hfe]
  rcases hp1 : parse st r1 with ⟨st1, p1⟩
  rw [hp1] at hp
  simp only at hp
  subst hp
  simp [hp1]

theorem causes_of_contract (st : SysState) (nowEnd : Int) (r : UpdateResult)
    (h : r = ⟨st, .ok (), 0, 0, 0⟩ ∨ refreshOutcomeContract st nowEnd r) :
    (r.state.online = none → st.online = none ∨ ∃ te, r.result = .error (.transport te)) ∧
    (r.state.online = some false →
       st.online = some false ∨ r.result = .error (.parse .systemOffline)) ∧
    (r.state.online = some true → st.online = some true ∨ r.result = .ok ()) := by
  rcases h with rfl | hc
  · exact ⟨fun h2 => .inl h2, fun h2 => .inl h2, fun h2 => .inl h2⟩
  · obtain ⟨h1, h2, h3, h4⟩ := hc
    refine ⟨?_, ?_, ?_⟩ <;> intro ho
    · rcases hr : r.result with e | u
      · cases e with
        | transport te => exact .inr ⟨te, rfl⟩
        | parse pe =>
          by_cases hpe : pe = ParseErr.systemOffline
          · subst hpe
            rw [(h3 hr).1] at ho
            simp at ho
          · rw [(h4 pe hpe hr).1] at ho
            exact .inl ho
      · cases u
        rw [(h1 hr).1] at ho
        simp at ho
    · rcases hr : r.result with e | u
      · cases e with
        | transport te =>
            rw [(h2 te hr).1] at ho
            simp at ho
        | parse pe =>
          by_cases hpe : pe = ParseErr.systemOffline
          · subst hpe
            exact .inr rfl
          · rw [(h4 pe hpe hr).1] at ho
            exact .inl ho
      · cases u
        rw [(h1 hr).1] at ho
        simp at ho
    · rcases hr : r.result with e | u
      · cases e with
        | transport te =>
            rw [(h2 te hr).1] at ho
            simp at ho
        | parse pe =>
          by_cases hpe : pe = ParseErr.systemOffline
          · subst hpe
            rw [(h3 hr).1] at ho
            simp at ho
          · rw [(h4 pe hpe hr).1] at ho
            exact .inl ho
      · cases u
        exact .inr rfl

/-- C2: for every existing shadow tree and incoming update (a Python dict,
so with unique keys at every level), a successful `Shadow.update` leaves
every key path absent from the update untouched (leaves are set or
replaced only at key paths present in the update, recursing into — and
creating — sub-trees for mapping-valued keys); and merging
`a.b = 1` then `a.c = 2` into the same tree keeps both leaves. -/
theorem c2_shadow_merge_no_loss :
    (∀ (es : List (String × DNode)) (u : List (String × JVal))
       (ver md : Option JVal) (dres : DNode),
       keysOkL u = true →
       Shadow.update (.node es) u ver md = .ok dres →
       ∀ p, uHasPath u p = false → dGetPath dres p = dGetPath (.node es) p) ∧
    (∃ d1, Shadow.update (.node []) [("a", .jobj [("b", .jnum 1)])] none none = .ok d1 ∧
       Shadow.update d1 [("a", .jobj [("c", .jnum 2)])] none none
         = .ok (.node [("a", .node
             [("b", .leaf ⟨some (.jnum 1), none, none⟩),
              ("c", .leaf ⟨some (.jnum 2), none, none⟩)])])) := by
  constructor
  · intro es u ver md dres hk hok p hp
    exact update_absent_paths (.node es) u ver md hk dres hok p hp
  · refine ⟨.node [("a", .node [("b", .leaf ⟨some (.jnum 1), none, none⟩)])], ?_, ?_⟩ <;>
      simp [Shadow.update, mdGetK, alGet, alSet]

/-- Witness for C2: a concrete successful merge leaving the unrelated key
"z" untouched, obtained by applying the theorem. -/
theorem c2_shadow_merge_no_loss_witness :
    dGetPath (.node [("z", .leaf ⟨some (.jnum 9), none, none⟩),
                     ("a", .leaf ⟨some (.jnum 1), none, none⟩)]) ["z"]
      = dGetPath (.node [("z", .leaf ⟨some (.jnum 9), none, none⟩)]) ["z"] := by
  refine c2_shadow_merge_no_loss.1
    [("z", .leaf ⟨some (.jnum 9), none, none⟩)] [("a", .jnum 1)] none none
    (.node [("z", .leaf ⟨some (.jnum 9), none, none⟩),
            ("a", .leaf ⟨some (.jnum 1), none, none⟩)])
    (by simp [keysOkL, alHasKey, alGet]) ?_ ["z"]
    (by simp [uHasPath, alGet])
  simp [Shadow.update, mdGetK, alGet, alSet]

/-- C10 counterexample: the claim "if some key of the update maps to a
nested mapping while the tree holds a `LockedData` leaf at that key (or a
leaf value where the tree holds a sub-tree), the merge raises" is false
as stated: merging the EMPTY mapping `{"k": {}}` onto a leaf at "k"
returns normally (the loop body never runs, so no dict operation is
attempted on the `LockedData`). -/
theorem c10_shape_mismatch_counterexample :
    ¬ (∀ (es : List (String × DNode)) (u : List (String × JVal))
         (ver md : Option JVal) (k : String),
         ((∃ vs, alGet u k = some (.jobj vs) ∧ ∃ ld, alGet es k = some (.leaf ld)) ∨
          (∃ v, alGet u k = some v ∧ v.isObj = false ∧
             ∃ nd, alGet es k = some (.node nd))) →
         ∃ e, Shadow.update (.node es) u ver md = .error e) := by
  intro h
  obtain ⟨e, he⟩ := h [("k", .leaf ⟨some (.jnum 1), none, none⟩)] [("k", .jobj [])]
    none none "k"
    (.inl ⟨[], by simp [alGet], ⟨⟨some (.jnum 1), none, none⟩, by simp [alGet]⟩⟩)
  simp [Shadow.update, mdGetK, alGet, alSet] at he

/-- C10 (amended): a key of the update mapping a NONEMPTY nested mapping
onto a `LockedData` leaf raises, a key mapping a non-mapping value onto a
sub-tree raises; and when every shared key path agrees on
mapping-versus-leaf shape (an empty incoming mapping being compatible
with anything), the merge returns normally — stated for dict-shaped
updates (unique keys per level) and no metadata tree, as at the
delta-update call sites. -/
theorem c10_shape_compatibility :
    (∀ (u : List (String × JVal)) (es : List (String × DNode))
       (ver md : Option JVal) (k : String) (vs : List (String × JVal))
       (ld : LockedData),
       alGet u k = some (.jobj vs) → vs ≠ [] → alGet es k = some (.leaf ld) →
       ∃ e, Shadow.update (.node es) u ver md = .error e) ∧
    (∀ (u : List (String × JVal)) (es : List (String × DNode))
       (ver md : Option JVal) (k : String) (v : JVal) (nd : List (String × DNode)),
       alGet u k = some v → v.isObj = false → alGet es k = some (.node nd) →
       ∃ e, Shadow.update (.node es) u ver md = .error e) ∧
    (∀ (d : DNode) (u : List (String × JVal)) (ver : Option JVal),
       keysOkL u = true → shapeAgreeD d u = true →
       ∃ d2, Shadow.update d u ver none = .ok d2) := by
  refine ⟨?_, ?_, ?_⟩
  · intro u es ver md k vs ld h1 h2 h3
    exact update_err_of_obj_onto_leaf u es ver md k vs ld h1 h2 h3
  · intro u es ver md k v nd h1 h2 h3
    exact update_err_of_leaf_onto_node u es ver md k v nd h1 h2 h3
  · intro d u ver h1 h2
    exact update_ok_of_shape d u ver none rfl h1 h2

/-- Witness for C10: applying the amended theorem at concrete inputs —
a nonempty mapping onto a leaf raises, and a shape-compatible merge
returns normally. -/
theorem c10_shape_compatibility_witness :
    (∃ e, Shadow.update (.node [("k", .leaf ⟨some (.jnum 1), none, none⟩)])
        [("k", .jobj [("x", .jnum 2)])] none none = .error e) ∧
    (∃ d2, Shadow.update (.node [("k", .leaf ⟨some (.jnum 1), none, none⟩)])
        [("k", .jnum 3), ("m", .jobj [("x", .jnum 2)])] none none = .ok d2) := by
  constructor
  · exact c10_shape_compatibility.1 [("k", .jobj [("x", .jnum 2)])]
      [("k", .leaf ⟨some (.jnum 1), none, none⟩)] none none "k"
      [("x", .jnum 2)] ⟨some (.jnum 1), none, none⟩
      (by simp [alGet]) (by simp) (by simp [alGet])
  · exact c10_shape_compatibility.2.2
      (.node [("k", .leaf ⟨some (.jnum 1), none, none⟩)])
      [("k", .jnum 3), ("m", .jobj [("x", .jnum 2)])] none
      (by simp [keysOkL, alHasKey, alGet])
      (by simp [shapeAgreeD, alGet])

/-- C1 counterexample: the claim quantifies over every call that
completes successfully, but a throttled call (fewer than
`MIN_SECS_TO_REFRESH` seconds since `last_refresh`) also returns
successfully — without setting `online` to true. -/
theorem c1_success_counterexample :
    ¬ (∀ (st : SysState) (env : PoolEnv),
         (AqualinkPoolSystem.update st env).result = .ok () →
         (AqualinkPoolSystem.update st env).state.online = some true) := by
  intro h
  have h2 := h { initialSysState with last_refresh := 100 }
    ⟨100, .ok .jnull, .ok .jnull, 100⟩ rfl
  exact absurd h2 (by decide)

/-- C1 (amended): for every controller family, on a call that passes the
refresh throttle (at least `MIN_SECS_TO_REFRESH` seconds since
`last_refresh`, with a monotone clock): success ends with `online = true`
and `last_refresh` advanced to the closing clock reading; a
transport-level failure (an `AqualinkServiceException`) ends with
`online` unknown and `last_refresh` unchanged; an offline-marker parse
ends with `online = false` and `last_refresh` unchanged. -/
theorem c1_refresh_cycle :
    (∀ (st : SysState) (env : PoolEnv),
       MIN_SECS_TO_REFRESH ≤ env.now - st.last_refresh → env.now ≤ env.nowEnd →
       refreshCycleClaim st env.nowEnd (AqualinkPoolSystem.update st env)) ∧
    (∀ (st : SysState) (env : ShadowEnv),
       MIN_SECS_TO_REFRESH ≤ env.now - st.last_refresh → env.now ≤ env.nowEnd →
       refreshCycleClaim st env.nowEnd (eXOChlorinator.update st env)) ∧
    (∀ (st : SysState) (env : ShadowEnv),
       MIN_SECS_TO_REFRESH ≤ env.now - st.last_refresh → env.now ≤ env.nowEnd →
       refreshCycleClaim st env.nowEnd (zs500Heater.update st env)) := by
  refine ⟨?_, ?_, ?_⟩
  · intro st env hth hmono
    obtain ⟨h1, h2, h3, _⟩ := poolUpdate_contract st env hth
    refine ⟨?_, h2, h3⟩
    intro hok
    obtain ⟨ha, hb⟩ := h1 hok
    refine ⟨ha, hb, ?_⟩
    rw [hb]
    simp only [MIN_SECS_TO_REFRESH] at hth
    omega
  · intro st env hth hmono
    show refreshCycleClaim st env.nowEnd (updateShadowSys parse_shadow_response_exo st env)
    obtain ⟨h1, h2, h3, _⟩ :=
      shadowUpdate_contract parse_shadow_response_exo parse_exo_fields st env hth
    refine ⟨?_, h2, h3⟩
    intro hok
    obtain ⟨ha, hb⟩ := h1 hok
    refine ⟨ha, hb, ?_⟩
    rw [hb]
    simp only [MIN_SECS_TO_REFRESH] at hth
    omega
  · intro st env hth hmono
    show refreshCycleClaim st env.nowEnd (updateShadowSys parse_shadow_response_zs500 st env)
    obtain ⟨h1, h2, h3, _⟩ :=
      shadowUpdate_contract parse_shadow_response_zs500 parse_zs500_fields st env hth
    refine ⟨?_, h2, h3⟩
    intro hok
    obtain ⟨ha, hb⟩ := h1 hok
    refine ⟨ha, hb, ?_⟩
    rw [hb]
    simp only [MIN_SECS_TO_REFRESH] at hth
    omega

/-- Witness for C1: a concrete transport failure ends with `online`
unknown and `last_refresh` unchanged, by the theorem. -/
theorem c1_refresh_cycle_witness :
    (AqualinkPoolSystem.update initialSysState
        ⟨100, .err .service, .err .service, 100⟩).state.online = none ∧
    (AqualinkPoolSystem.update initialSysState
        ⟨100, .err .service, .err .service, 100⟩).state.last_refresh
      = initialSysState.last_refresh :=
  (c1_refresh_cycle.1 initialSysState ⟨100, .err .service, .err .service, 100⟩
    (by decide) (by decide)).2.1 .service rfl

/-- C3 counterexample: two `update()` calls less than the minimum
interval apart can both fetch — when the first call fails,
`last_refresh` does not advance, so the second call passes the throttle
again (here: first call at t=100 fails with a transport error, second
call at t=101 fetches again: two fetch cycles within 15 seconds). -/
theorem c3_two_calls_counterexample :
    ¬ (∀ (st : SysState) (e1 e2 : PoolEnv),
         e1.now ≤ e1.nowEnd → e2.now < e1.now + MIN_SECS_TO_REFRESH →
         (AqualinkPoolSystem.update st e1).fetchCycles +
           (AqualinkPoolSystem.update
             (AqualinkPoolSystem.update st e1).state e2).fetchCycles ≤ 1) := by
  intro h
  have h2 := h initialSysState ⟨100, .err .service, .err .service, 100⟩
    ⟨101, .err .service, .err .service, 101⟩ (by decide) (by decide)
  exact absurd h2 (by decide)

/-- C3 (amended): for every controller family, a call made when fewer
than `MIN_SECS_TO_REFRESH` seconds have elapsed since `last_refresh`
returns without any side effects (no fetch, devices, online and
last_refresh unchanged); and two calls within the minimum interval
perform at most one fetch cycle provided the first call does not raise —
a failed first call leaves `last_refresh` unchanged, so the second may
fetch again. -/
theorem c3_refresh_throttle :
    (∀ (st : SysState) (env : PoolEnv),
       env.now - st.last_refresh < MIN_SECS_TO_REFRESH →
       AqualinkPoolSystem.update st env = ⟨st, .ok (), 0, 0, 0⟩) ∧
    (∀ (st : SysState) (env : ShadowEnv),
       env.now - st.last_refresh < MIN_SECS_TO_REFRESH →
       eXOChlorinator.update st env = ⟨st, .ok (), 0, 0, 0⟩ ∧
       zs500Heater.update st env = ⟨st, .ok (), 0, 0, 0⟩) ∧
    (∀ (st : SysState) (e1 e2 : PoolEnv),
       e1.now ≤ e1.nowEnd → e2.now < e1.now + MIN_SECS_TO_REFRESH →
       (AqualinkPoolSystem.update st e1).result = .ok () →
       (AqualinkPoolSystem.update st e1).fetchCycles +
         (AqualinkPoolSystem.update
           (AqualinkPoolSystem.update st e1).state e2).fetchCycles ≤ 1) ∧
    (∀ (st : SysState) (e1 e2 : ShadowEnv),
       e1.now ≤ e1.nowEnd → e2.now < e1.now + MIN_SECS_TO_REFRESH →
       (eXOChlorinator.update st e1).result = .ok () →
       (eXOChlorinator.update st e1).fetchCycles +
         (eXOChlorinator.update (eXOChlorinator.update st e1).state e2).fetchCycles ≤ 1) ∧
    (∀ (st : SysState) (e1 e2 : ShadowEnv),
       e1.now ≤ e1.nowEnd → e2.now < e1.now + MIN_SECS_TO_REFRESH →
       (zs500Heater.update st e1).result = .ok () →
       (zs500Heater.update st e1).fetchCycles +
         (zs500Heater.update (zs500Heater.update st e1).state e2).fetchCycles ≤ 1) := by
  refine ⟨?_, ?_, ?_, ?_, ?_⟩
  · intro st env h
    exact poolUpdate_throttled st env h
  · intro st env h
    exact ⟨shadowUpdate_throttled parse_shadow_response_exo st env h,
           shadowUpdate_throttled parse_shadow_response_zs500 st env h⟩
  · intro st e1 e2 hm hgap hok
    exact update_two_calls_pool st e1 e2 hm hgap hok
  · intro st e1 e2 hm hgap hok
    exact update_two_calls_shadow parse_shadow_response_exo st e1 e2 hm hgap hok
  · intro st e1 e2 hm hgap hok
    exact update_two_calls_shadow parse_shadow_response_zs500 st e1 e2 hm hgap hok

/-- Witness for C3: a concrete throttled call is a no-op, by the
theorem. -/
theorem c3_refresh_throttle_witness :
    AqualinkPoolSystem.update { initialSysState with last_refresh := 95 }
        ⟨100, .ok .jnull, .ok .jnull, 100⟩
      = ⟨{ initialSysState with last_refresh := 95 }, .ok (), 0, 0, 0⟩ :=
  c3_refresh_throttle.1 { initialSysState with last_refresh := 95 }
    ⟨100, .ok .jnull, .ok .jnull, 100⟩ (by decide)

/-- C4 counterexample: for the polling family, an unauthorized fetch
error does NOT trigger a re-login: `AqualinkPoolSystem.update` has no
unauthorized handler, performs zero `login()` calls and propagates the
error immediately (with `online` set to unknown). -/
theorem c4_relogin_counterexample :
    ¬ (∀ (st : SysState) (env : PoolEnv),
         MIN_SECS_TO_REFRESH ≤ env.now - st.last_refresh →
         env.homeResp = .err .unauthorized →
         (AqualinkPoolSystem.update st env).logins = 1) := by
  intro h
  have h2 := h initialSysState ⟨100, .err .unauthorized, .err .unauthorized, 100⟩
    (by decide) rfl
  exact absurd h2 (by decide)

/-- C4 (amended): for the shadow-request families (eXOChlorinator and
zs500Heater), an unauthorized first fetch triggers exactly one
re-authentication and exactly one retried fetch; if the re-login fails,
or the retried fetch fails, the error propagates with `online` unknown
and no further re-login or retry. The polling family performs no
re-login at all: an unauthorized error propagates immediately like any
transport failure. -/
theorem c4_single_relogin :
    (∀ (st : SysState) (env : ShadowEnv),
       MIN_SECS_TO_REFRESH ≤ env.now - st.last_refresh →
       env.fetch1 = .err .unauthorized →
       (eXOChlorinator.update st env).logins = 1 ∧
       (env.loginResult = none → (eXOChlorinator.update st env).shadowFetches = 2) ∧
       (∀ e, env.loginResult = some e →
          (eXOChlorinator.update st env).shadowFetches = 1 ∧
          (eXOChlorinator.update st env).result = .error (.transport e) ∧
          (eXOChlorinator.update st env).state.online = none) ∧
       (∀ e, env.loginResult = none → env.fetch2 = .err e →
          (eXOChlorinator.update st env).result = .error (.transport e) ∧
          (eXOChlorinator.update st env).state.online = none)) ∧
    (∀ (st : SysState) (env : ShadowEnv),
       MIN_SECS_TO_REFRESH ≤ env.now - st.last_refresh →
       env.fetch1 = .err .unauthorized →
       (zs500Heater.update st env).logins = 1 ∧
       (env.loginResult = none → (zs500Heater.update st env).shadowFetches = 2) ∧
       (∀ e, env.loginResult = some e →
          (zs500Heater.update st env).shadowFetches = 1 ∧
          (zs500Heater.update st env).result = .error (.transport e) ∧
          (zs500Heater.update st env).state.online = none) ∧
       (∀ e, env.loginResult = none → env.fetch2 = .err e →
          (zs500Heater.update st env).result = .error (.transport e) ∧
          (zs500Heater.update st env).state.online = none)) ∧
    (∀ (st : SysState) (env : PoolEnv),
       (AqualinkPoolSystem.update st env).logins = 0) := by
  refine ⟨?_, ?_, ?_⟩
  · intro st env hth hf1
    exact shadowUpdate_relogin parse_shadow_response_exo st env (not_lt.mpr hth) hf1
  · intro st env hth hf1
    exact shadowUpdate_relogin parse_shadow_response_zs500 st env (not_lt.mpr hth) hf1
  · intro st env
    exact poolUpdate_logins st env

/-- Witness for C4: a concrete unauthorized-then-failed-retry cycle
performs exactly one login and two fetches and propagates the error, by
the theorem. -/
theorem c4_single_relogin_witness :
    (eXOChlorinator.update initialSysState
        ⟨100, .err .unauthorized, none, .err .service, 100⟩).logins = 1 ∧
    (eXOChlorinator.update initialSysState
        ⟨100, .err .unauthorized, none, .err .service, 100⟩).shadowFetches = 2 ∧
    (eXOChlorinator.update initialSysState
        ⟨100, .err .unauthorized, none, .err .service, 100⟩).result
      = .error (.transport .service) := by
  have h := c4_single_relogin.1 initialSysState
    ⟨100, .err .unauthorized, none, .err .service, 100⟩ (by decide) rfl
  exact ⟨h.1, h.2.1 rfl, (h.2.2.2 .service rfl rfl).1⟩

/-- C5 counterexample: the MQTT offline callback
(`MQTT_client_onOffline` in `client.py`) sets `online = False` on a
push-channel disconnection — a transport-level event, not a
successfully-parsed offline response — so the claim that `online`
transitions to false only from a parsed offline response is false. -/
theorem c5_online_transitions_counterexample :
    ¬ (∀ (st : SysState) (e : SysEvent),
         (stepEvent st e).online = some false →
         st.online = some false ∨
         eventOutcome st e = some (.error (.parse .systemOffline))) := by
  intro h
  have h2 := h { initialSysState with online := some true } .mqttOffline rfl
  rcases h2 with h3 | h3
  · exact absurd h3 (by decide)
  · exact absurd h3 (by simp [eventOutcome])

/-- C5 (amended): over every operation (update cycles, setters and
push-channel callbacks), a controller's `online` flag transitions to
unknown only through a transport-level update failure, to false only
through a successfully-parsed offline response or the MQTT disconnect
callback, and to true only after a fully successful update parse
cycle. -/
theorem c5_online_transition_causes :
    ∀ (st : SysState) (e : SysEvent),
    ((stepEvent st e).online = none →
       st.online = none ∨ ∃ te, eventOutcome st e = some (.error (.transport te))) ∧
    ((stepEvent st e).online = some false →
       st.online = some false ∨
       eventOutcome st e = some (.error (.parse .systemOffline)) ∨
       e = .mqttOffline) ∧
    ((stepEvent st e).online = some true →
       st.online = some true ∨ eventOutcome st e = some (.ok ())) := by
  intro st e
  cases e with
  | updateIaqua env =>
      have hdisj : AqualinkPoolSystem.update st env = ⟨st, .ok (), 0, 0, 0⟩ ∨
          refreshOutcomeContract st env.nowEnd (AqualinkPoolSystem.update st env) := by
        by_cases hth : env.now - st.last_refresh < MIN_SECS_TO_REFRESH
        · exact .inl (poolUpdate_throttled st env hth)
        · exact .inr (poolUpdate_contract st env (not_lt.mp hth))
      obtain ⟨hc1, hc2, hc3⟩ := causes_of_contract st env.nowEnd _ hdisj
      refine ⟨?_, ?_, ?_⟩
      · intro ho
        rcases hc1 ho with h | ⟨te, hte⟩
        · exact .inl h
        · exact .inr ⟨te, by
            rw [show eventOutcome st (SysEvent.updateIaqua env)
              = some (AqualinkPoolSystem.update st env).result from rfl, hte]⟩
      · intro ho
        rcases hc2 ho with h | hoff
        · exact .inl h
        · exact .inr (.inl (by
            rw [show eventOutcome st (SysEvent.updateIaqua env)
              = some (AqualinkPoolSystem.update st env).result from rfl, hoff]))
      · intro ho
        rcases hc3 ho with h | hok
        · exact .inl h
        · exact .inr (by
            rw [show eventOutcome st (SysEvent.updateIaqua env)
              = some (AqualinkPoolSystem.update st env).result from rfl, hok])
  | updateExo env =>
      have hdisj : updateShadowSys parse_shadow_response_exo st env = ⟨st, .ok (), 0, 0, 0⟩ ∨
          refreshOutcomeContract st env.nowEnd
            (updateShadowSys parse_shadow_response_exo st env) := by
        by_cases hth : env.now - st.last_refresh < MIN_SECS_TO_REFRESH
        · exact .inl (shadowUpdate_throttled parse_shadow_response_exo st env hth)
        · exact .inr (shadowUpdate_contract parse_shadow_response_exo
            parse_exo_fields st env (not_lt.mp hth))
      obtain ⟨hc1, hc2, hc3⟩ := causes_of_contract st env.nowEnd _ hdisj
      refine ⟨?_, ?_, ?_⟩
      · intro ho
        rcases hc1 ho with h | ⟨te, hte⟩
        · exact .inl h
        · exact .inr ⟨te, by
            rw [show eventOutcome st (SysEvent.updateExo env)
              = some (eXOChlorinator.update st env).result from rfl]
            exact congrArg some hte⟩
      · intro ho
        rcases hc2 ho with h | hoff
        · exact .inl h
        · exact .inr (.inl (by
            rw [show eventOutcome st (SysEvent.updateExo env)
              = some (eXOChlorinator.update st env).result from rfl]
            exact congrArg some hoff))
      · intro ho
        rcases hc3 ho with h | hok
        · exact .inl h
        · exact .inr (by
            rw [show eventOutcome st (SysEvent.updateExo env)
              = some (eXOChlorinator.update st env).result from rfl]
            exact congrArg some hok)
  | updateZs500 env =>
      have hdisj : updateShadowSys parse_shadow_response_zs500 st env = ⟨st, .ok (), 0, 0, 0⟩ ∨
          refreshOutcomeContract st env.nowEnd
            (updateShadowSys parse_shadow_response_zs500 st env) := by
        by_cases hth : env.now - st.last_refresh < MIN_SECS_TO_REFRESH
        · exact .inl (shadowUpdate_throttled parse_shadow_response_zs500 st env hth)
        · exact .inr (shadowUpdate_contract parse_shadow_response_zs500
            parse_zs500_fields st env (not_lt.mp hth))
      obtain ⟨hc1, hc2, hc3⟩ := causes_of_contract st env.nowEnd _ hdisj
      refine ⟨?_, ?_, ?_⟩
      · intro ho
        rcases hc1 ho with h | ⟨te, hte⟩
        · exact .inl h
        · exact .inr ⟨te, by
            rw [show eventOutcome st (SysEvent.updateZs500 env)
              = some (zs500Heater.update st env).result from rfl]
            exact congrArg some hte⟩
      · intro ho
        rcases hc2 ho with h | hoff
        · exact .inl h
        · exact .inr (.inl (by
            rw [show eventOutcome st (SysEvent.updateZs500 env)
              = some (zs500Heater.update st env).result from rfl]
            exact congrArg some hoff))
      · intro ho
        rcases hc3 ho with h | hok
        · exact .inl h
        · exact .inr (by
            rw [show eventOutcome st (SysEvent.updateZs500 env)
              = some (zs500Heater.update st env).result from rfl]
            exact congrArg some hok)
  | poolSetHome resp =>
      cases resp with
      | err e2 => exact ⟨fun h => .inl h, fun h => .inl h, fun h => .inl h⟩
      | ok r =>
          refine ⟨?_, ?_, ?_⟩ <;> intro ho <;>
            simp only [stepEvent] at ho <;>
            rw [(parse_home_fields st r).1] at ho <;>
            exact .inl ho
  | poolSetDevices resp =>
      cases resp with
      | err e2 => exact ⟨fun h => .inl h, fun h => .inl h, fun h => .inl h⟩
      | ok r =>
          refine ⟨?_, ?_, ?_⟩ <;> intro ho <;>
            simp only [stepEvent] at ho <;>
            rw [(parse_devices_fields st r).1] at ho <;>
            exact .inl ho
  | shadowSetDesired => exact ⟨fun h => .inl h, fun h => .inl h, fun h => .inl h⟩
  | mqttOffline =>
      refine ⟨?_, ?_, ?_⟩ <;> intro ho
      · exact absurd ho (by simp [stepEvent, MQTT_client_onOffline])
      · exact .inr (.inr rfl)
      · exact absurd ho (by simp [stepEvent, MQTT_client_onOffline])

/-- Witness for C5: the MQTT disconnect transition of a previously
online controller is classified by the theorem: it is licensed only by
the `mqttOffline` disjunct. -/
theorem c5_online_transition_causes_witness :
    ({ initialSysState with online := some true } : SysState).online = some false ∨
    eventOutcome { initialSysState with online := some true } .mqttOffline
      = some (.error (.parse .systemOffline)) ∨
    SysEvent.mqttOffline = SysEvent.mqttOffline :=
  (c5_online_transition_causes { initialSysState with online := some true }
    .mqttOffline).2.1 rfl

/-- C6: when the first element of the devices section carries the
Offline status marker, `_parse_devices_response` raises the offline
signal and returns the system state exactly as it was: no device added,
removed or modified (the marker is checked before any mutation). -/
theorem c6_offline_marker_preserves_registry :
    ∀ (st : SysState) (data : JVal),
      devicesOfflineMarker data = true →
      parse_devices_response st data = (st, .error .systemOffline) := by
  intro st data h
  unfold devicesOfflineMarker at h
  unfold parse_devices_response
  cases h1 : jget data "devices_screen" with
  | error e => simp [h1] at h
  | ok ds =>
    simp only [h1] at h ⊢
    cases ds with
    | jarr xs =>
        cases h2 : jidx (JVal.jarr xs) 0 with
        | error e => simp [h2] at h
        | ok x0 =>
            simp only [h2] at h ⊢
            cases h3 : jget x0 "status" with
            | error e => simp [h3] at h
            | ok status =>
                simp only [h3] at h ⊢
                simp [h]
    | jnum n => simp [jidx] at h
    | jstr s2 => simp [jidx] at h
    | jbool b => simp [jidx] at h
    | jnull => simp [jidx] at h
    | jobj es => simp [jidx] at h

/-- Witness for C6: a concrete offline payload leaves a concrete
one-device registry untouched, by the theorem. -/
theorem c6_offline_marker_preserves_registry_witness :
    parse_devices_response
        { initialSysState with
            devices := [("aux_B1", ⟨0, [("name", .jstr "aux_B1")]⟩)], nextId := 1 }
        (.jobj [("devices_screen", .jarr [.jobj [("status", .jstr "Offline")]])])
      = ({ initialSysState with
            devices := [("aux_B1", ⟨0, [("name", .jstr "aux_B1")]⟩)], nextId := 1 },
         .error .systemOffline) :=
  c6_offline_marker_preserves_registry
    { initialSysState with
        devices := [("aux_B1", ⟨0, [("name", .jstr "aux_B1")]⟩)], nextId := 1 }
    (.jobj [("devices_screen", .jarr [.jobj [("status", .jstr "Offline")]])])
    rfl

/-- C7: every parser (flat-screen home and devices sections, and both
shadow parsers) preserves the registry: a device name present before the
parse is still present afterwards, bound to the same object identity (the
existing device is mutated in place, never replaced), and no key is ever
removed. -/
theorem c7_registry_identity_preserved :
    registryPreserving parse_home_response ∧
    registryPreserving parse_devices_response ∧
    registryPreserving parse_shadow_response_exo ∧
    registryPreserving parse_shadow_response_zs500 :=
  ⟨parse_home_devId, parse_devices_devId, parse_exo_devId, parse_zs500_devId⟩

/-- Witness for C7: re-parsing a concrete home payload keeps the
existing "temp1" device object (identity 7), by the theorem. -/
theorem c7_registry_identity_preserved_witness :
    ∃ dev2,
      alGet ((parse_home_response
        { initialSysState with
            devices := [("temp1", ⟨7, [("name", .jstr "temp1"), ("state", .jstr "70")]⟩)],
            nextId := 8 }
        (.jobj [("home_screen", .jarr
          [.jobj [("status", .jstr "Online")], .jnull, .jnull,
           .jobj [("temp_scale", .jstr "F")],
           .jobj [("temp1", .jstr "68")]])])).1).devices "temp1" = some dev2 ∧
      dev2.devId = (⟨7, [("name", .jstr "temp1"), ("state", .jstr "70")]⟩ : AqualinkDevice).devId :=
  c7_registry_identity_preserved.1
    { initialSysState with
        devices := [("temp1", ⟨7, [("name", .jstr "temp1"), ("state", .jstr "70")]⟩)],
        nextId := 8 }
    (.jobj [("home_screen", .jarr
      [.jobj [("status", .jstr "Online")], .jnull, .jnull,
       .jobj [("temp_scale", .jstr "F")],
       .jobj [("temp1", .jstr "68")]])])
    "temp1" ⟨7, [("name", .jstr "temp1"), ("state", .jstr "70")]⟩ rfl

/-- C8 counterexample: calling a setter the family does not implement —
light control on the chlorinator — does not produce the dedicated
"unsupported operation" signal of the error taxonomy: no such method
exists on `eXOChlorinator` or the base class, so the call fails with a
plain missing-attribute error. -/
theorem c8_unsupported_counterexample :
    ¬ (∀ (f : FamilyTag) (s : SetterName),
         ¬ (s ∈ familySetters f ∨ s ∈ baseSetters) →
         invokeSetter f s = .unsupportedSignal) := by
  intro h
  have h2 := h .exo .set_light (by decide)
  exact absurd h2 (by decide)

/-- C8 (amended): for every controller family and every setter the
family does not implement, the call fails loudly with a missing-method
(`AttributeError`) failure rather than silently doing nothing; no
dedicated "unsupported operation" exception exists in this code path. -/
theorem c8_unsupported_setters :
    ∀ (f : FamilyTag) (s : SetterName),
      ¬ (s ∈ familySetters f ∨ s ∈ baseSetters) →
      invokeSetter f s = .attributeError ∧ invokeSetter f s ≠ .methodCalled := by
  intro f s h
  unfold invokeSetter
  rw [if_neg h]
  exact ⟨rfl, by simp⟩

/-- Witness for C8: light control on the chlorinator fails with the
missing-attribute error, by the theorem. -/
theorem c8_unsupported_setters_witness :
    invokeSetter .exo .set_light = .attributeError ∧
    invokeSetter .exo .set_light ≠ .methodCalled :=
  c8_unsupported_setters .exo .set_light (by decide)

/-- C9 counterexample: for the shadow-document families, `update()` is
not a cheap liveness stamp: it performs the state transfer synchronously —
a successful call fetches the shadow document and fills the device
registry inside the call (here: from an empty registry, the chlorinator
update installs the parsed `swc` device). -/
theorem c9_liveness_stamp_counterexample :
    ¬ (∀ (st : SysState) (env : ShadowEnv),
         (eXOChlorinator.update st env).state.devices = st.devices) := by
  intro h
  have h2 := h initialSysState
    ⟨100,
     .ok (.jobj [("state", .jobj [("reported", .jobj
       [("equipment", .jobj [("swc_0", .jobj [("swc", .jnum 80)])]),
        ("heating", .jobj [("sp", .jnum 32)])])])]),
     none, .ok .jnull, 100⟩
  have h3 := congrArg (fun l => (alGet l "swc").isSome) h2
  exact absurd h3 (by decide)

/-- C9 (amended): for the shadow-document families, `update()` performs
the state transfer synchronously: on a non-throttled call whose fetch
and parse succeed, the resulting state is exactly the parsed state with
`online = true` and `last_refresh` re-stamped — the real device-registry
update happens inside `update()`, not asynchronously. -/
theorem c9_synchronous_transfer :
    (∀ (st : SysState) (env : ShadowEnv) (r1 : JVal),
       MIN_SECS_TO_REFRESH ≤ env.now - st.last_refresh →
       env.fetch1 = .ok r1 →
       (parse_shadow_response_exo st r1).2 = .ok () →
       (eXOChlorinator.update st env).state
         = { (parse_shadow_response_exo st r1).1 with
             online := some true, last_refresh := env.nowEnd } ∧
       (eXOChlorinator.update st env).result = .ok ()) ∧
    (∀ (st : SysState) (env : ShadowEnv) (r1 : JVal),
       MIN_SECS_TO_REFRESH ≤ env.now - st.last_refresh →
       env.fetch1 = .ok r1 →
       (parse_shadow_response_zs500 st r1).2 = .ok () →
       (zs500Heater.update st env).state
         = { (parse_shadow_response_zs500 st r1).1 with
             online := some true, last_refresh := env.nowEnd } ∧
       (zs500Heater.update st env).result = .ok ()) := by
  constructor
  · intro st env r1 hth hfe hp
    exact shadowUpdate_sync_transfer parse_shadow_response_exo st env r1
      (not_lt.mpr hth) hfe hp
  · intro st env r1 hth hfe hp
    exact shadowUpdate_sync_transfer parse_shadow_response_zs500 st env r1
      (not_lt.mpr hth) hfe hp

/-- Witness for C9: on a concrete shadow payload, the chlorinator
update installs the parsed devices and succeeds, by the theorem. -/
theorem c9_synchronous_transfer_witness :
    (eXOChlorinator.update initialSysState
      ⟨100,
       .ok (.jobj [("state", .jobj [("reported", .jobj
         [("equipment", .jobj [("swc_0", .jobj [("swc", .jnum 80)])]),
          ("heating", .jobj [("sp", .jnum 32)])])])]),
       none, .ok .jnull, 100⟩).state
      = { (parse_shadow_response_exo initialSysState
            (.jobj [("state", .jobj [("reported", .jobj
              [("equipment", .jobj [("swc_0", .jobj [("swc", .jnum 80)])]),
               ("heating", .jobj [("sp", .jnum 32)])])])])).1 with
          online := some true, last_refresh := 100 } ∧
    (eXOChlorinator.update initialSysState
      ⟨100,
       .ok (.jobj [("state", .jobj [("reported", .jobj
         [("equipment", .jobj [("swc_0", .jobj [("swc", .jnum 80)])]),
          ("heating", .jobj [("sp", .jnum 32)])])])]),
       none, .ok .jnull, 100⟩).result = .ok () :=
  c9_synchronous_transfer.1 initialSysState
    ⟨100,
     .ok (.jobj [("state", .jobj [("reported", .jobj
       [("equipment", .jobj [("swc_0", .jobj [("swc", .jnum 80)])]),
        ("heating", .jobj [("sp", .jnum 32)])])])]),
     none, .ok .jnull, 100⟩
    (.jobj [("state", .jobj [("reported", .jobj
      [("equipment", .jobj [("swc_0", .jobj [("swc", .jnum 80)])]),
       ("heating", .jobj [("sp", .jnum 32)])])])])
    (by decide) rfl rfl
